import Mathlib

/-!
Verification development for the iQua softener Home Assistant integration.

The Python source is embedded shallowly:
* JSON / loosely-typed Python values become the inductive type `J`
  (floats and ints are both modelled as exact rationals `ℚ`; the float
  values arising in the claims involve no overflow or rounding subtleties,
  and `inf`/`nan` string forms are out of scope);
* Python dicts become insertion-ordered association lists with
  overwrite-in-place assignment (`kvSet`), matching CPython semantics;
* fallible code returns `Option` / `Except`;
* wall-clock instants are rationals (datetimes are measured in days,
  epoch timestamps in plain seconds).
-/

set_option maxHeartbeats 1000000

namespace IquaSoft

/-- Loosely-typed Python/JSON value: None, bool, number (int or float,
modelled exactly as a rational), string, list, dict. -/
inductive J where
  | null : J
  | bool : Bool → J
  | num : ℚ → J
  | str : String → J
  | arr : List J → J
  | obj : List (String × J) → J

/-- Python truthiness of a value (`bool(x)`). -/
def pyTruthy : J → Bool
  | J.null => false
  | J.bool b => b
  | J.num q => q != 0
  | J.str s => s != ""
  | J.arr xs => !xs.isEmpty
  | J.obj fs => !fs.isEmpty

/-- Python `str(x)`.  Strings map to themselves, `None`/`True`/`False` and
numbers to their usual text; the bracketed repr of containers is abstracted
to a fixed non-numeric placeholder (it is never float-parseable, which is
all the embedded code ever relies on). -/
def pyStr : J → String
  | J.null => "None"
  | J.bool true => "True"
  | J.bool false => "False"
  | J.num q => if q.den = 1 then toString q.num else toString q
  | J.str s => s
  | J.arr _ => "<list>"
  | J.obj _ => "<dict>"

/-- The whitespace characters stripped by Python `str.strip()` (ASCII part). -/
def isPySpace (c : Char) : Bool :=
  c = ' ' || c = '\t' || c = '\n' || c = '\r' || c = '\x0b' || c = '\x0c'

/-- Python `str.strip()`. -/
def pyStrip (s : String) : String :=
  String.mk (((s.toList.dropWhile isPySpace).reverse.dropWhile isPySpace).reverse)

/-- Python `str.lower()` (ASCII). -/
def strLower (s : String) : String := String.mk (s.toList.map Char.toLower)

/-- Python `s.endswith(suf)`. -/
def strEndsWith (s suf : String) : Bool :=
  List.isPrefixOf suf.toList.reverse s.toList.reverse

/-- Python `s.startswith(pre)`. -/
def strStartsWith (s pre : String) : Bool :=
  List.isPrefixOf pre.toList s.toList

/-- Python `str.replace(" ", "")`. -/
def removeSpaces (s : String) : String :=
  String.mk (s.toList.filter (fun c => c ≠ ' '))

def isDigitChar (c : Char) : Bool := '0' ≤ c && c ≤ '9'

/-- Continuation of `digitsUnd` after at least one digit was consumed:
accepts further digits, or an underscore followed by a digit. -/
def digitsUndGo : List Char → List Char × List Char
  | [] => ([], [])
  | '_' :: cs =>
    match cs with
    | d :: cs2 =>
      if isDigitChar d then
        let p := digitsUndGo cs2
        (d :: p.1, p.2)
      else ([], '_' :: d :: cs2)
    | [] => ([], ['_'])
  | c :: cs =>
    if isDigitChar c then
      let p := digitsUndGo cs
      (c :: p.1, p.2)
    else ([], c :: cs)

/-- Consume a run of decimal digits that may contain single underscores
between digits (Python numeric literal grammar).  Returns the digits with
underscores removed, and the unconsumed remainder. -/
def digitsUnd : List Char → List Char × List Char
  | [] => ([], [])
  | c :: cs =>
    if isDigitChar c then
      let p := digitsUndGo cs
      (c :: p.1, p.2)
    else ([], c :: cs)

def digitsToNat (ds : List Char) : Nat :=
  ds.foldl (fun n c => 10 * n + (c.toNat - '0'.toNat)) 0

/-- Parse the mantissa `I`, `I.F`, `I.`, or `.F` of a Python float literal.
Returns integer digits, fraction digits and the rest of the input. -/
def parseMantissa (cs : List Char) : Option (List Char × List Char × List Char) :=
  let (ip, r1) := digitsUnd cs
  match r1 with
  | '.' :: r2 =>
    let (fp, r3) := digitsUnd r2
    if ip.isEmpty && fp.isEmpty then none else some (ip, fp, r3)
  | _ => if ip.isEmpty then none else some (ip, [], r1)

/-- Assemble a rational from sign, digits and exponent. -/
def mantissaVal (neg : Bool) (ip fp : List Char) (ex : Int) : ℚ :=
  let m : ℚ := (digitsToNat (ip ++ fp) : ℚ)
  let v := m / (10 : ℚ) ^ (fp.length) * (10 : ℚ) ^ ex
  if neg then -v else v

/-- Python `float(s)` on a string: optional surrounding whitespace, optional
sign, decimal mantissa with optional underscores, optional exponent.
`inf` / `nan` spellings are outside the model and yield `none`. -/
def pyParseFloat (s : String) : Option ℚ :=
  let cs0 := (pyStrip s).toList
  let (neg, cs1) : Bool × List Char :=
    match cs0 with
    | '+' :: t => (false, t)
    | '-' :: t => (true, t)
    | t => (false, t)
  match parseMantissa cs1 with
  | none => none
  | some (ip, fp, r) =>
    match r with
    | [] => some (mantissaVal neg ip fp 0)
    | e :: t =>
      if e = 'e' || e = 'E' then
        let (esgn, t2) : Bool × List Char :=
          match t with
          | '+' :: u => (false, u)
          | '-' :: u => (true, u)
          | u => (false, u)
        let (ds, r3) := digitsUnd t2
        if !ds.isEmpty && r3.isEmpty then
          some (mantissaVal neg ip fp
            (if esgn then -(digitsToNat ds : Int) else (digitsToNat ds : Int)))
        else none
      else none

/-- Python `float(x)` on an arbitrary value: numbers map to themselves,
bools to 0/1 (a Python bool is an int), strings are parsed, everything
else raises (modelled as `none`). -/
def pyFloat : J → Option ℚ
  | J.num q => some q
  | J.bool b => some (if b then 1 else 0)
  | J.str s => pyParseFloat s
  | _ => none

/-- Python `int(q)` on a float: truncation toward zero. -/
def ratTruncInt (q : ℚ) : Int :=
  if 0 ≤ q then ⌊q⌋ else -⌊-q⌋

/-- Insertion-ordered association list modelling a Python dict with `J` values. -/
abbrev Kv := List (String × J)

/-- Python `d.get(k)` / `d[k]`: first matching key (keys are unique in a
dict built by `alSet`, so this is the dict entry). -/
def alGet {α : Type} : List (String × α) → String → Option α
  | [], _ => none
  | (k, v) :: t, key => if k = key then some v else alGet t key

/-- Python `d[k] = v`: overwrite in place if the key exists, append otherwise
(CPython keeps the original insertion position on overwrite). -/
def alSet {α : Type} : List (String × α) → String → α → List (String × α)
  | [], key, val => [(key, val)]
  | (k, v) :: t, key, val =>
    if k = key then (key, val) :: t else (k, v) :: alSet t key val

def kvGet (kv : Kv) (k : String) : Option J := alGet kv k

def kvSet (kv : Kv) (k : String) (v : J) : Kv := alSet kv k v

/-- Python `d.get(k)` where an absent key yields `None` (the value `J.null`). -/
def kvGetJ (kv : Kv) (k : String) : J := (kvGet kv k).getD J.null

/-- `.get(k)` on a value known to be a dict; `none` on a non-dict. -/
def dictGet (j : J) (k : String) : Option J :=
  match j with
  | J.obj fs => alGet fs k
  | _ => none

/-- Python `j.get(k)` returning `None` when absent. -/
def dictGetJ (j : J) (k : String) : J := (dictGet j k).getD J.null

/-- Python `j.get(k, d)` with an explicit default. -/
def dictGetD (j : J) (k : String) (d : J) : J := (dictGet j k).getD d

/-- Python `a or b`. -/
def pyOr2 (a b : J) : J := if pyTruthy a then a else b

/-- Last `n` elements of a list: Python slice `xs[-n:]`. -/
def pyLastN {α : Type} (n : Nat) (xs : List α) : List α := xs.drop (xs.length - n)

/-- Is the value the Python `None`? -/
def isNull : J → Bool
  | J.null => true
  | _ => false

/-- `(group_key, item_key) -> canonical kv key` table from the coordinator. -/
def CANONICAL_KV_MAP : List ((String × String) × String) := [
  (("customer", "time_message_received"), "customer.time_message_received"),
  (("customer", "customer_full_name"), "customer.full_name"),
  (("customer", "device_id"), "customer.device_id"),
  (("manufacturing_information", "base_software_version"), "manufacturing_information.base_software_version"),
  (("manufacturing_information", "model"), "manufacturing_information.model"),
  (("manufacturing_information", "model_code"), "manufacturing_information.model_code"),
  (("manufacturing_information", "pwa"), "manufacturing_information.pwa"),
  (("manufacturing_information", "build_year"), "manufacturing_information.build_year"),
  (("manufacturing_information", "build_day"), "manufacturing_information.build_day"),
  (("manufacturing_information", "build_seq"), "manufacturing_information.build_seq"),
  (("manufacturing_information", "build_fixture"), "manufacturing_information.build_fixture"),
  (("manufacturing_information", "wifi_module_version"), "manufacturing_information.wifi_module_version"),
  (("configuration_information", "system_type"), "configuration.system_type"),
  (("configuration_information", "resin_load"), "configuration.resin_load_liters"),
  (("configuration_information", "refill_rate"), "configuration.refill_rate_lpm"),
  (("configuration_information", "turbine_revolutions"), "configuration.turbine_revs_per_liter"),
  (("configuration_information", "valve_type"), "configuration.valve_type"),
  (("configuration_information", "efficiency_mode"), "configuration.efficiency_mode"),
  (("program_settings", "operating_capacity_grains"), "configuration.operating_capacity_grains"),
  (("configuration_information", "operating_capacity"), "configuration.operating_capacity_grains"),
  (("configuration_information", "operating_capacity_grains"), "configuration.operating_capacity_grains"),
  (("program_settings", "controller_time"), "program.controller_time"),
  (("program_settings", "hardness"), "program.hardness"),
  (("program_settings", "max_days"), "program.max_days"),
  (("program_settings", "recharge_time"), "program.recharge_time"),
  (("program_settings", "second_backwash_time"), "program.second_backwash_time"),
  (("program_settings", "backwash_time"), "program.backwash_time"),
  (("program_settings", "fast_rinse_time"), "program.fast_rinse_time"),
  (("program_settings", "regen_time_remaining"), "program.regen_time_remaining"),
  (("program_settings", "rinse_type"), "program.rinse_type"),
  (("program_settings", "volume_units"), "program.volume_units"),
  (("program_settings", "hardness_units"), "program.hardness_units"),
  (("program_settings", "97_percent_feature"), "program.feature_97_percent"),
  (("program_settings", "salt_type"), "program.salt_type"),
  (("program_settings", "weight_units"), "program.weight_units"),
  (("program_settings", "time_format"), "program.time_format"),
  (("capacity", "capacity_remaining_percent"), "capacity.capacity_remaining_percent"),
  (("capacity", "average_capacity_remaining_at_regen"), "capacity.average_capacity_remaining_at_regen_percent"),
  (("water_usage", "treated_water"), "water_usage.treated_water"),
  (("water_usage", "untreated_water"), "water_usage.untreated_water"),
  (("water_usage", "water_today"), "water_usage.water_today"),
  (("water_usage", "average_daily_use"), "water_usage.average_daily_use"),
  (("water_usage", "water_totalizer"), "water_usage.water_totalizer"),
  (("water_usage", "treated_water_left"), "water_usage.treated_water_left"),
  (("water_usage", "current_flow_rate"), "water_usage.current_flow_rate"),
  (("water_usage", "peak_flow"), "water_usage.peak_flow"),
  (("salt_usage", "salt_total"), "salt_usage.salt_total"),
  (("salt_usage", "total_salt_efficiency"), "salt_usage.total_salt_efficiency"),
  (("salt_usage", "salt_monitor_enum"), "salt_usage.salt_monitor_enum"),
  (("salt_usage", "salt_monitor_level"), "salt_usage.salt_monitor_level"),
  (("salt_usage", "out_of_salt_days"), "salt_usage.out_of_salt_days"),
  (("salt_usage", "average_salt_dose_per_recharge"), "salt_usage.average_salt_dose_per_recharge"),
  (("rock_removed", "total_rock_removed"), "rock_removed.total_rock_removed"),
  (("rock_removed", "daily_average_rock_removed"), "rock_removed.daily_average_rock_removed"),
  (("rock_removed", "since_regen_rock_removed"), "rock_removed.since_regen_rock_removed"),
  (("regenerations", "total_rock_removed"), "regenerations.time_in_operation_days"),
  (("regenerations", "total_regens"), "regenerations.total_regens"),
  (("regenerations", "manual_regens"), "regenerations.manual_regens"),
  (("regenerations", "second_backwash_cycles"), "regenerations.second_backwash_cycles"),
  (("regenerations", "time_since_last_recharge"), "regenerations.time_since_last_recharge_days"),
  (("regenerations", "average_days_between_recharge"), "regenerations.average_days_between_recharge_days"),
  (("power_outages", "total_power_outages"), "power_outages.total_power_outages"),
  (("power_outages", "total_times_power_lost"), "power_outages.total_times_power_lost"),
  (("power_outages", "days_since_last_time_loss"), "power_outages.days_since_last_time_loss"),
  (("power_outages", "longest_recorded_outage"), "power_outages.longest_recorded_outage"),
  (("functional_check", "water_meter_sensor"), "functional_check.water_meter_sensor"),
  (("functional_check", "computer_board"), "functional_check.computer_board"),
  (("functional_check", "cord_power_supply"), "functional_check.cord_power_supply"),
  (("miscellaneous", "second_output"), "miscellaneous.second_output"),
  (("miscellaneous", "regeneration_enabled"), "miscellaneous.regeneration_enabled"),
  (("miscellaneous", "lockout_status"), "miscellaneous.lockout_status")]

def canonicalGet : List ((String × String) × String) → String → String → Option String
  | [], _, _ => none
  | ((g0, i0), c) :: t, g, i =>
    if g0 = g && i0 = i then some c else canonicalGet t g i

/-- `_normalize_group_key` / `_normalize_item_key`:
`str(key or "").strip().lower()`. -/
def normKey (v : J) : String :=
  strLower (pyStrip (pyStr (if pyTruthy v then v else J.str "")))

/-- `CANONICAL_KV_MAP.get((gkey, raw_item_key)) or f"gkey.raw_item_key"`
(every canonical value is a non-empty string, so Python `or` is `getD`). -/
def canonicalKey (g i : String) : String :=
  (canonicalGet CANONICAL_KV_MAP g i).getD (g ++ "." ++ i)

/-- Python `v == "lit"` for a string literal: true only for an equal string
(numeric/bool cross-type coercion cannot match a string). -/
def isStrEq (v : J) (s : String) : Bool :=
  match v with
  | J.str t => t == s
  | _ => false

/-- `_extract_item_value`. -/
def extractItemValue (item : J) : J :=
  if isStrEq (dictGetJ item "type") "kv" then
    match pyOr2 (dictGetJ item "item_kv") (J.obj []) with
    | J.obj fs => kvGetJ fs "value"
    | _ => J.null
  else J.null

/-- The canonical key / value contribution of one debug item inside a group
whose normalized key is `gkey`; `none` when the item is skipped (non-dict
item, or type other than `kv`). -/
def itemEntry (gkey : String) (item : J) : Option (String × J) :=
  match item with
  | J.obj _ =>
    if isStrEq (dictGetJ item "type") "kv" then
      some (canonicalKey gkey (normKey (dictGetD item "key" (J.str ""))),
        extractItemValue item)
    else none
  | _ => none

/-- All kv contributions of one group, in item order: dict groups with a
list of items only, items filtered by `itemEntry`. -/
def groupEntries (g : J) : List (String × J) :=
  match g with
  | J.obj _ =>
    match dictGetD g "items" (J.arr []) with
    | J.arr items => items.filterMap (itemEntry (normKey (dictGetD g "key" (J.str ""))))
    | _ => []
  | _ => []

/-- The kv-building double loop of `_parse_debug_json`. -/
def kvOfGroups (gs : List J) : Kv :=
  gs.foldl (fun m g => (groupEntries g).foldl (fun m2 p => kvSet m2 p.1 p.2) m) []

/-- The time-message alias step at the end of `_parse_debug_json`: when the
canonical timestamp key is absent, copy the first non-None value whose key
ends in `.time_message_received`. -/
def aliasTimeMsg (kv : Kv) : Kv :=
  if (kvGet kv "customer.time_message_received").isSome then kv
  else
    match kv.find? (fun p => strEndsWith p.1 ".time_message_received" && !(isNull p.2)) with
    | some p => kvSet kv "customer.time_message_received" p.2
    | none => kv

/-- A `type == "table"` item parsed by `_parse_tables`. -/
structure TableInfo where
  title : J
  columnTitles : J
  rows : J
  group : String

/-- The table contribution of one debug item (`_parse_tables` inner loop body). -/
def tableItemEntry (gkey : String) (item : J) : Option (String × TableInfo) :=
  match item with
  | J.obj _ =>
    if isStrEq (dictGetJ item "type") "table" then
      match pyOr2 (dictGetJ item "item_table") (J.obj []) with
      | J.obj fs =>
        some (normKey (dictGetD item "key" (J.str "")),
          ⟨kvGetJ fs "title", (alGet fs "column_titles").getD (J.arr []),
           (alGet fs "rows").getD (J.arr []), gkey⟩)
      | _ => none
    else none
  | _ => none

/-- Table contributions of one group. -/
def groupTableEntries (g : J) : List (String × TableInfo) :=
  match g with
  | J.obj _ =>
    match dictGetD g "items" (J.arr []) with
    | J.arr items => items.filterMap (tableItemEntry (normKey (dictGetD g "key" (J.str ""))))
    | _ => []
  | _ => []

/-- `_parse_tables`. -/
def parseTables (gs : List J) : List (String × TableInfo) :=
  gs.foldl (fun m g => (groupTableEntries g).foldl (fun m2 p => alSet m2 p.1 p.2) m) []

/-- `_parse_debug_json`: raises `UpdateFailed` when the payload value under
`groups` is not a list (Python raises `AttributeError` on a non-dict payload;
both failure modes are collapsed into `Except.error`).  Returns the pair
(`kv`, `tables`). -/
def parseDebugJson (payload : J) : Except String (Kv × List (String × TableInfo)) :=
  match payload with
  | J.obj _ =>
    match dictGetD payload "groups" (J.arr []) with
    | J.arr gs => Except.ok (aliasTimeMsg (kvOfGroups gs), parseTables gs)
    | _ => Except.error "Unexpected debug payload"
  | _ => Except.error "payload is not a dict"

/-- `_to_float`: best-effort float conversion handling comma decimals. -/
def pyToFloat (v : J) : Option ℚ :=
  match v with
  | J.null => none
  | J.num q => some q
  | J.bool b => some (if b then 1 else 0)
  | v =>
    let s := removeSpaces (pyStrip (pyStr v))
    let s2 :=
      if s.toList.count ',' = 1 && s.toList.count '.' = 0 then
        String.mk (s.toList.map (fun c => if c = ',' then '.' else c))
      else s
    pyParseFloat s2

/-- Rate-limit backoff state of the coordinator: `_rl_hits`, `_rl_backoff_s`,
`_rl_until`. -/
structure RlState where
  rlHits : Nat
  rlBackoff : ℚ
  rlUntil : ℚ
deriving DecidableEq

/-- An HTTP response as far as `_get` inspects it: status code and the
optional `Retry-After` header. -/
structure HttpResp where
  status : Nat
  retryAfter : Option String

/-- `if self._rl_until and now < self._rl_until`. -/
def windowActive (st : RlState) (now : ℚ) : Bool :=
  st.rlUntil != 0 && now < st.rlUntil

/-- The `Retry-After` parsing inside the 429 branch of `_get`: a present,
non-empty header that parses as a float. -/
def retryAfterParsed (r : HttpResp) : Option ℚ :=
  match r.retryAfter with
  | some s => if s ≠ "" then pyParseFloat s else none
  | none => none

/-- The response dispatch at the bottom of `_get` (from the 429 check to the
success path): jitter is the value drawn from `random.uniform(0, 10)` and
`now2` the second `time.time()` call.  Returns the raised/ok outcome and the
new rate-limit state. -/
def respDispatch (st : RlState) (r : HttpResp) (jitter now2 : ℚ) :
    Except String Unit × RlState :=
  if r.status = 429 then
    let hits := min (st.rlHits + 1) 10
    let base : ℚ := 60 * 2 ^ (hits - 1)
    let b0 := min 900 base
    let b1 :=
      match retryAfterParsed r with
      | some ra => max b0 ra
      | none => b0
    let b := b1 + jitter
    (Except.error "GET failed: HTTP 429", ⟨hits, b, now2 + b⟩)
  else if r.status ≠ 200 then
    (Except.error "GET failed: HTTP error", st)
  else
    (Except.ok (), ⟨0, 0, 0⟩)

/-- `IquaSoftenerCoordinator._get`: backoff-window check, the GET, an
optional re-login plus retry on 401/403, then `respDispatch`.  The server
behaviour is supplied as the two possible responses (`r1` for the first
request, `r2` after a re-login) and whether `_login` succeeds.  The third
component counts HTTP GET requests actually issued. -/
def pyGet (st : RlState) (now : ℚ) (useToken : Bool) (r1 r2 : HttpResp)
    (loginOk : Bool) (jitter now2 : ℚ) :
    Except String Unit × RlState × Nat :=
  if windowActive st now then
    (Except.error "GET failed: HTTP 429 (backoff active)", st, 0)
  else if useToken && (r1.status = 401 || r1.status = 403) then
    if loginOk then
      ((respDispatch st r2 jitter now2).1, (respDispatch st r2 jitter now2).2, 2)
    else (Except.error "login failed", st, 1)
  else
    ((respDispatch st r1 jitter now2).1, (respDispatch st r1 jitter now2).2, 1)

/-- The response whose status `_get` dispatches on (after any auth retry). -/
def finalRespOf (useToken : Bool) (r1 r2 : HttpResp) : HttpResp :=
  if useToken && (r1.status = 401 || r1.status = 403) then r2 else r1

/-- The exception taxonomy visible to the two `_async_update_data`
implementations, with Python messages (`str(err)`) attached. -/
inductive PyExc where
  | updateFailed (msg : String)
  | requestExc (msg : String)
  | iquaSoftenerExc (msg : String)
  | timeoutErr (msg : String)
  | osErr (msg : String)
  | otherExc (name msg : String)
deriving DecidableEq

def PyExc.excName : PyExc → String
  | .updateFailed _ => "UpdateFailed"
  | .requestExc _ => "RequestException"
  | .iquaSoftenerExc _ => "IquaSoftenerException"
  | .timeoutErr _ => "TimeoutError"
  | .osErr _ => "OSError"
  | .otherExc n _ => n

def PyExc.excMsg : PyExc → String
  | .updateFailed m => m
  | .requestExc m => m
  | .iquaSoftenerExc m => m
  | .timeoutErr m => m
  | .osErr m => m
  | .otherExc _ m => m

def PyExc.isUpdateFailed : PyExc → Bool
  | .updateFailed _ => true
  | _ => false

/-- `_async_update_data` of `custom_components/iqua_softener/coordinator.py`:
the argument is the outcome of the fetch + post-processing body; handlers are
`except UpdateFailed: raise`, `except requests.exceptions.RequestException`,
`except Exception` in source order. -/
def asyncUpdateData (r : Except PyExc J) : Except PyExc J :=
  match r with
  | .ok d => .ok d
  | .error e =>
    match e with
    | .updateFailed m => .error (.updateFailed m)
    | .requestExc m => .error (.updateFailed ("Request error: " ++ m))
    | e2 => .error (.updateFailed
        ("Unexpected error: " ++ e2.excName ++ ": " ++ e2.excMsg))

/-- `_async_update_data` of the legacy `src/coordinator.py`: handlers are
`except IquaSoftenerException`, `except TimeoutError`, `except OSError`,
`except Exception`.  `requests.RequestException` derives from `IOError`
(= `OSError`), so it is taken by the `OSError` clause; `UpdateFailed` is an
ordinary `Exception` and is wrapped by the final clause. -/
def legacyUpdateData (r : Except PyExc J) : Except PyExc J :=
  match r with
  | .ok d => .ok d
  | .error e =>
    match e with
    | .iquaSoftenerExc m =>
      .error (.updateFailed ("Get data failed (IquaSoftenerException): " ++ m))
    | .timeoutErr m =>
      .error (.updateFailed ("Get data failed (TimeoutError): " ++ m))
    | .osErr m =>
      .error (.updateFailed ("Get data failed (OSError): " ++ m))
    | .requestExc m =>
      .error (.updateFailed ("Get data failed (OSError): " ++ m))
    | e2 => .error (.updateFailed
        ("Get data failed (" ++ e2.excName ++ "): " ++ e2.excMsg))

/-- `EWMA_TAU_SECONDS` from `const.py`. -/
def EWMA_TAU_SECONDS : ℚ := 60 * 60

/-- The mutable `{'value': .., 'ts': ..}` dict threaded through
`_ewma_update`. -/
structure EwmaState where
  value : Option ℚ
  ts : Option ℚ
deriving DecidableEq

/-- `_ewma_update` from `sensor.py`.  `math.exp` is supplied as the function
argument `expFn` (the claims only rely on range facts about it, which the
theorems take as hypotheses).  Returns the function result and the updated
state dict. -/
def ewmaUpdate (expFn : ℚ → ℚ) (st : EwmaState) (x nowTs tau : ℚ) :
    ℚ × EwmaState :=
  match st.value, st.ts with
  | some prev, some prevTs =>
    let dt := max (nowTs - prevTs) 0
    if dt ≤ 0 ∨ tau ≤ 0 then (prev, st)
    else
      let alpha := 1 - expFn (-(dt / tau))
      let nv := prev + alpha * (x - prev)
      (nv, ⟨some nv, some nowTs⟩)
  | _, _ => (x, ⟨some x, some nowTs⟩)

/-- The coordinator attributes read or written by `_postprocess_calculations`,
`async_load_baseline` and `_async_save_baseline`.  Datetimes are rationals
measured in days, monotone timestamps rationals in seconds.
`capacityTotalLAttr` and `cloudDaysPrev` model the dynamically-created
attributes `_capacity_total_l` and `_cloud_days_since_last_recharge_prev`. -/
structure PPState where
  baselineTreatedTotalL : Option ℚ
  regenActivePrev : Bool
  regenLatchUntil : ℚ
  regenLatchSeconds : ℚ
  lastRegenEnd : Option ℚ
  regenEndHistory : List ℚ
  dailyUsageHistory : List (String × ℚ)
  lastWaterTodayL : Option ℚ
  lastWaterTodayDate : Option String
  capacityIstReady : Bool
  capacityRemainingL : Option ℚ
  waterTotalLastL : Option ℚ
  lastCapacityResetDate : Option String
  lastTotalCapacityL : Option ℚ
  lastRechargeCycles : Option Int
  capacityTotalLAttr : Option ℚ
  cloudDaysPrev : Option ℚ
deriving DecidableEq

/-- `_compute_capacity_total_l`: operating capacity (grains) over hardness,
scaled by liters per gallon; `none` when either input is missing,
unparseable or non-positive. -/
def computeCapacityTotalL (kv : Kv) : Option ℚ :=
  let op0 := kvGetJ kv "configuration.operating_capacity_grains"
  let op :=
    if isNull op0 then
      match kv.find? (fun p => strEndsWith p.1 "operating_capacity_grains") with
      | some p => p.2
      | none => J.null
    else op0
  let hard0 := kvGetJ kv "program.hardness_grains"
  let hard :=
    if isNull hard0 then
      match kv.find? (fun p => strEndsWith p.1 "hardness_grains" || strEndsWith p.1 "hardness") with
      | some p => p.2
      | none => J.null
    else hard0
  match pyFloat op, pyFloat hard with
  | some o, some h =>
    if o ≤ 0 ∨ h ≤ 0 then none else some (o / h * (378541 / 100000 : ℚ))
  | _, _ => none

/-- `float(kv.get("water_usage.treated_water"))`, `None` on failure. -/
def treatedTotalL (kv : Kv) : Option ℚ :=
  (kvGet kv "water_usage.treated_water").bind pyFloat

/-- fix24 recharge-cycle counter: `int(float(cur_cycles))` when present with
a non-blank textual form, else `None`. -/
def curCyclesI (kv : Kv) : Option Int :=
  match kvGet kv "regenerations.second_backwash_cycles" with
  | some v =>
    if !(isNull v) && pyStrip (pyStr v) ≠ "" then (pyFloat v).map ratTruncInt
    else none
  | none => none

/-- `recharge_bumped`: the cycle counter increased since the previous poll. -/
def rechargeBumped (st : PPState) (kv : Kv) : Bool :=
  match curCyclesI kv, st.lastRechargeCycles with
  | some c, some p => p < c
  | _, _ => false

/-- Remember the last seen cycle counter. -/
def cyclesStep (st : PPState) (kv : Kv) : PPState :=
  match curCyclesI kv with
  | some c => {st with lastRechargeCycles := some c}
  | none => st

/-- `regen_rem`: the remaining-regeneration-time counter, defaulting to 0. -/
def regenRemOf (kv : Kv) : ℚ :=
  ((kvGet kv "program.regen_time_remaining").bind pyFloat).getD 0

/-- The explicit regeneration status string, when present, a string and
non-blank. -/
def regenStatusStr (kv : Kv) : Option String :=
  match pyOr2 (kvGetJ kv "regeneration.regeneration_status")
      (kvGetJ kv "regeneration_status") with
  | J.str s => if pyStrip s ≠ "" then some s else none
  | _ => none

/-- `regen_active_by_status`. -/
def regenActiveByStatus (kv : Kv) : Option Bool :=
  match regenStatusStr kv with
  | some s =>
    let t := strLower (pyStrip s)
    if t ∈ ["regenerating", "recharging", "recharge", "backwash", "rinse",
        "brine", "fast_rinse", "slow_rinse"] then some true
    else if t ∈ ["idle", "ready", "standby", "off"] then some false
    else none
  | none => none

/-- Latch maintenance (clear on explicit idle, extend on observed activity)
returning the updated state and the latched `regen_active` flag. -/
def latchStep (st : PPState) (kv : Kv) (nowTs : ℚ) : PPState × Bool :=
  let byStatus := regenActiveByStatus kv
  let rawActive : Bool :=
    match byStatus with
    | some true => true
    | some false => false
    | none => decide (0 < regenRemOf kv)
  let st1 := if byStatus = some false then {st with regenLatchUntil := 0} else st
  let st2 :=
    if rawActive then
      {st1 with regenLatchUntil := max st1.regenLatchUntil (nowTs + st1.regenLatchSeconds)}
    else st1
  (st2, rawActive || decide (nowTs < st2.regenLatchUntil))

/-- The regeneration-end edge block (`regen ended: active -> inactive`). -/
def regenEdgeStep (st : PPState) (kv : Kv) (active : Bool) (nowDt : ℚ) : PPState :=
  match treatedTotalL kv with
  | some w =>
    if !active && st.regenActivePrev then
      let st1 := {st with baselineTreatedTotalL := some w}
      let st2 :=
        match computeCapacityTotalL kv with
        | some t =>
          if 0 < t then
            {st1 with
              capacityTotalLAttr := some t, capacityRemainingL := some t,
              capacityIstReady := true}
          else {st1 with capacityIstReady := false}
        | none => {st1 with capacityIstReady := false}
      {st2 with
        waterTotalLastL := some w, lastRegenEnd := some nowDt,
        regenEndHistory := pyLastN 30 (st2.regenEndHistory ++ [nowDt])}
    else st
  | none => st

/-- The fix24b recharge-counter-bump block. -/
def bumpStep (st : PPState) (kv : Kv) (active bumped : Bool) : PPState :=
  if bumped && !active then
    match treatedTotalL kv, computeCapacityTotalL kv with
    | some w, some t =>
      if 0 < t then
        {st with
          baselineTreatedTotalL := some w, capacityTotalLAttr := some t,
          capacityRemainingL := some t, capacityIstReady := true,
          waterTotalLastL := some w}
      else st
    | _, _ => st
  else st

/-- The explicit key list scanned for `days_since_last_recharge` values. -/
def daysSinceKeys : List String := [
  "enriched_data.days_since_last_recharge",
  "enriched.days_since_last_recharge",
  "enriched.days_since_last_recharge_days",
  "enriched_data.days_since_last_recharge_days",
  "days_since_last_recharge",
  "days_since_last_recharge_days",
  "regenerations.time_since_last_recharge_days",
  "regenerations.days_since_last_recharge_days"]

/-- First key of the list present in `kv` with a non-None value
(`if kv.get(k) is not None: ...; break`). -/
def firstPresent (kv : Kv) : List String → Option J
  | [] => none
  | k :: ks =>
    match kvGet kv k with
    | some v => if isNull v then firstPresent kv ks else some v
    | none => firstPresent kv ks

/-- `cloud_days_since_f` as computed inside the fix23 block. -/
def fix23DaysSince (kv : Kv) : Option ℚ :=
  (firstPresent kv daysSinceKeys).bind pyToFloat

/-- The fix23 missed-regen-edge capacity reset block. -/
def fix23Step (st : PPState) (kv : Kv) (active bumped : Bool) (regRem : ℚ)
    (today : String) : PPState :=
  let totalNow := computeCapacityTotalL kv
  let st1 :=
    match totalNow with
    | some t => if 0 < t then {st with lastTotalCapacityL := some t} else st
    | none => st
  let cds := fix23DaysSince kv
  let resetCand : Bool := decide (cds = some 0) && decide (regRem = 0) && !active
  let stuck : Bool :=
    match st1.capacityRemainingL with
    | none => true
    | some r => decide (r ≤ 0)
  let recovCand : Bool := !resetCand &&
    (match cds with | some d => decide (d ≤ 1) | none => false) &&
    decide (regRem = 0) && !active &&
    (stuck || !st1.capacityIstReady || bumped)
  if resetCand || recovCand then
    if st1.lastCapacityResetDate ≠ some today then
      let fb : Option ℚ :=
        match st1.lastTotalCapacityL with
        | some t2 => if 0 < t2 then some t2 else none
        | none => none
      let tfr : Option ℚ :=
        match totalNow with
        | some t => if 0 < t then some t else fb
        | none => fb
      match tfr with
      | none => st1
      | some tr =>
        let needs : Bool := !st1.capacityIstReady ||
          (match st1.capacityRemainingL with
           | none => true
           | some r => decide (r ≤ 0))
        if needs then
          let st2 := {st1 with capacityRemainingL := some tr, capacityIstReady := true}
          let st3 :=
            match treatedTotalL kv with
            | some w => {st2 with baselineTreatedTotalL := some w}
            | none => st2
          {st3 with lastCapacityResetDate := some today}
        else {st1 with lastCapacityResetDate := some today}
    else st1
  else st1

/-- Lexicographic (code-point) comparison of strings, as Python compares. -/
def charListLt : List Char → List Char → Bool
  | [], [] => false
  | [], _ :: _ => true
  | _ :: _, [] => false
  | a :: as, b :: bs => if a < b then true else if b < a then false else charListLt as bs

def strLeB (a b : String) : Bool := a == b || charListLt a.toList b.toList

def insStr (x : String) : List String → List String
  | [] => [x]
  | y :: t => if strLeB x y then x :: y :: t else y :: insStr x t

/-- Python `sorted` on strings (insertion sort; keys are distinct). -/
def sortStr (xs : List String) : List String := xs.foldr insStr []

def insRat (x : ℚ) : List ℚ → List ℚ
  | [] => [x]
  | y :: t => if x ≤ y then x :: y :: t else y :: insRat x t

/-- Python `sorted` on rationals. -/
def sortRat (xs : List ℚ) : List ℚ := xs.foldr insRat []

/-- The dedup-then-sort-by-date rebuild of the daily usage history. -/
def dedupDaily (xs : List (String × ℚ)) : List (String × ℚ) :=
  let m := xs.foldl (fun acc p => alSet acc p.1 p.2) ([] : List (String × ℚ))
  (sortStr (m.map Prod.fst)).filterMap (fun k => (alGet m k).map (fun l => (k, l)))

/-- The daily water-usage tracking block. -/
def dailyStep (st : PPState) (kv : Kv) (today : String) : PPState :=
  let wt := (kvGet kv "water_usage.water_today").bind pyFloat
  match st.lastWaterTodayDate with
  | none => {st with lastWaterTodayDate := some today, lastWaterTodayL := wt}
  | some pd =>
    match wt, st.lastWaterTodayL with
    | some w, some lw =>
      if w + 1 / 10 < lw ∧ 1 < lw then
        {st with
          dailyUsageHistory := pyLastN 60 (dedupDaily (st.dailyUsageHistory ++ [(pd, lw)])),
          lastWaterTodayDate := some today, lastWaterTodayL := some w}
      else {st with lastWaterTodayL := some w, lastWaterTodayDate := some today}
    | _, _ => {st with lastWaterTodayDate := some today, lastWaterTodayL := wt}

/-- The first-install baseline inference block (absolute remaining liters
preferred, cloud percent as fallback). -/
def inferBaselineStep (st : PPState) (kv : Kv) : PPState :=
  match st.baselineTreatedTotalL, treatedTotalL kv with
  | none, some w =>
    let total := computeCapacityTotalL kv
    let leftL := (kvGet kv "water_usage.treated_water_left").bind pyFloat
    match total, leftL with
    | some t, some l => {st with baselineTreatedTotalL := some (w - max 0 (t - l))}
    | _, _ =>
      let pctRaw := pyOr2 (pyOr2 (pyOr2 (kvGetJ kv "capacity.capacity_remaining_percent")
          (kvGetJ kv "status.capacity_remaining_percent"))
          (kvGetJ kv "detail.capacity_remaining_percent"))
          (kvGetJ kv "capacity_remaining_percent")
      let pct : Option ℚ :=
        if isNull pctRaw then none
        else
          match pyFloat pctRaw with
          | some p0 =>
            let p1 := if 100 < p0 then p0 / 10 else p0
            some (max 0 (min 100 p1))
          | none => none
      match total, pct with
      | some t, some p => {st with baselineTreatedTotalL := some (w - t * (1 - p / 100))}
      | _, _ => st
  | _, _ => st

/-- The fix17 delta-based remaining-capacity tracking block. -/
def deltaTrackStep (st : PPState) (active : Bool) (treated : Option ℚ) : PPState :=
  if !active && st.capacityIstReady then
    match st.capacityRemainingL, st.waterTotalLastL, treated with
    | some rem, some lw, some w =>
      let delta := w - lw
      if 0 < delta then
        {st with
          capacityRemainingL := some (max 0 (rem - delta)),
          waterTotalLastL := some w}
      else if delta < 0 then {st with waterTotalLastL := some w}
      else st
    | _, _, _ => st
  else st

def listInfix (pat : List Char) : List Char → Bool
  | [] => pat.isEmpty
  | c :: cs => if List.isPrefixOf pat (c :: cs) then true else listInfix pat cs

/-- Python `pat in s` substring test. -/
def containsSub (s pat : String) : Bool := listInfix pat.toList s.toList

/-- The fallback scan over enriched keys containing
`days_since_last_recharge`. -/
def enrichedDaysScan (kv : Kv) : Option J :=
  (kv.find? (fun p => !(isNull p.2) && containsSub p.1 "days_since_last_recharge" &&
      (strStartsWith p.1 "enriched" || strStartsWith p.1 "enriched_data" ||
        p.1 == "days_since_last_recharge"))).map Prod.snd

/-- `cloud_days_since` of the fallback-calculation branch: explicit key list
first, then the enriched scan. -/
def cloudDaysOf (kv : Kv) : Option J :=
  match firstPresent kv daysSinceKeys with
  | some v => some v
  | none => enrichedDaysScan kv

def optNumJ : Option ℚ → J
  | some q => J.num q
  | none => J.null

/-- Consecutive differences of a sorted timestamp list (in days). -/
def pairDiffs : List ℚ → List ℚ
  | a :: b :: t => (b - a) :: pairDiffs (b :: t)
  | _ => []

/-- Key list for the cloud-provided average-days-between fallback. -/
def avgDaysKeys : List String := [
  "regenerations.average_days_between_recharge_days",
  "regenerations.average_days_between_regen_days",
  "enriched.average_days_between_recharge_days",
  "enriched_data.average_days_between_recharge_days"]

/-- Seeding of `_last_regen_end` from the cloud counter when absent
(first block after the absolute-calculation writes). -/
def seedLastRegen (st : PPState) (kv9 : Kv) (nowDt : ℚ) : PPState :=
  if st.lastRegenEnd.isNone then
    match (kvGet kv9 "regenerations.time_since_last_recharge_days").bind pyFloat with
    | some d => {st with lastRegenEnd := some (nowDt - d)}
    | none => st
  else st

/-- Recharge detection via a drop of `days_since_last_recharge`
(`cds` is `cloud_days_since_f`; `w`, `t` the treated total and total
capacity, both present in this branch). -/
def daysDropStep (st1 : PPState) (cds : Option ℚ) (w t nowDt : ℚ) : PPState :=
  match cds with
  | some d =>
    let prevCloud := st1.cloudDaysPrev
    let st1b := {st1 with cloudDaysPrev := some d}
    (match prevCloud with
     | some pc =>
       if d + 1 / 2 < pc then
         let st1c := {st1b with
           lastRegenEnd := some nowDt,
           regenEndHistory := pyLastN 30 (st1b.regenEndHistory ++ [nowDt])}
         {st1c with
           capacityRemainingL := some t, waterTotalLastL := some w,
           capacityIstReady := true}
       else st1b
     | none => st1b)
  | none => st1

/-- The `calculated.days_since_last_regen_days` write plus the
`_last_regen_end` sync. -/
def daysSinceWrite (st2 : PPState) (kv9 : Kv) (cds : Option ℚ) (nowDt : ℚ) :
    PPState × Kv :=
  if st2.lastRegenEnd.isSome || cds.isSome then
    match cds with
    | some d =>
      ({st2 with lastRegenEnd := some (nowDt - d)},
       kvSet kv9 "calculated.days_since_last_regen_days"
         (J.num ((max 0 (ratTruncInt d) : ℤ) : ℚ)))
    | none =>
      match st2.lastRegenEnd with
      | some lre =>
        (st2, kvSet kv9 "calculated.days_since_last_regen_days"
          (J.num (max 0 (nowDt - lre))))
      | none => (st2, kv9)
  else (st2, kv9)

/-- The average-daily-use writes (7/14/30-day means from the local history,
with the cloud fallback). -/
def avgDailyWrite (hist : List (String × ℚ)) (kv10 : Kv) : Kv :=
  let kv11 :=
    if !hist.isEmpty then
      let last7 := (pyLastN 7 hist).map Prod.snd
      let kvA := kvSet kv10 "calculated.average_daily_use_l"
        (if last7.isEmpty then J.null else J.num (last7.sum / last7.length))
      let kvB :=
        if isNull (kvGetJ kvA "calculated.average_daily_use_l") then
          kvSet kvA "calculated.average_daily_use_l"
            (optNumJ ((kvGet kvA "water_usage.average_daily_use").bind pyFloat))
        else kvA
      let last14 := (pyLastN 14 hist).map Prod.snd
      let kvC := kvSet kvB "calculated.average_daily_use_l_14d"
        (if last14.isEmpty then J.null else J.num (last14.sum / last14.length))
      let last30 := (pyLastN 30 hist).map Prod.snd
      kvSet kvC "calculated.average_daily_use_l_30d"
        (if last30.isEmpty then J.null else J.num (last30.sum / last30.length))
    else kv10
  if isNull (kvGetJ kv11 "calculated.average_daily_use_l") then
    kvSet kv11 "calculated.average_daily_use_l"
      (optNumJ (pyToFloat (kvGetJ kv11 "water_usage.average_daily_use")))
  else kv11

/-- The restart-fallback bootstrap block (`w` the treated total, present in
this branch). -/
def bootstrapStep (st3 : PPState) (kv12 : Kv) (cds : Option ℚ) (w : ℚ) :
    PPState × Kv :=
  if !st3.capacityIstReady && cds.isSome then
    match (kvGet kv12 "calculated.treated_capacity_total_l").bind pyFloat with
    | some tn =>
      if 0 < tn then
        match cds with
        | some dys =>
          if 1 ≤ dys then
            let tt := ((kvGet kv12 "water_usage.water_today").bind pyFloat).getD 0
            let avgD := (kvGet kv12 "calculated.average_daily_use_l").bind pyFloat
            let est0 := max 0 tt
            let est :=
              if 1 < dys then
                match avgD with
                | some a => if 0 ≤ a then est0 + max 0 (dys - 1) * a else est0
                | none => est0
              else est0
            let remEst := max 0 (min tn (tn - est))
            let kvX := kvSet kv12 "calculated.treated_capacity_remaining_l" (J.num remEst)
            let kvY := kvSet kvX "calculated.treated_capacity_remaining_percent"
              (J.num (remEst / tn * 100))
            let kvZ := kvSet kvY "calculated.treated_capacity_remaining_is_estimate" (J.bool true)
            let stB := {st3 with capacityRemainingL := some remEst, capacityIstReady := true}
            let stC := {stB with waterTotalLastL := some w}
            let stE :=
              if stC.baselineTreatedTotalL.isNone then
                {stC with baselineTreatedTotalL := some (max 0 (w - est))}
              else stC
            (stE, kvZ)
          else (st3, kv12)
        | none => (st3, kv12)
      else (st3, kv12)
    | none => (st3, kv12)
  else (st3, kv12)

/-- The average-days-between-regenerations computation and write. -/
def avgDaysBetweenWrite (st4 : PPState) (kv13 : Kv) : Kv :=
  let adb1 : Option ℚ :=
    if 2 ≤ st4.regenEndHistory.length then
      let histTs := sortRat st4.regenEndHistory
      let diffs := pairDiffs histTs
      let last5 := (pyLastN 5 diffs).filter (fun d => 0 ≤ d)
      if last5.isEmpty then none else some (last5.sum / last5.length)
    else none
  let adb2 : Option ℚ :=
    match adb1 with
    | some a => some a
    | none =>
      match pyToFloat (kvGetJ kv13 "regenerations.time_in_operation_days"),
          pyToFloat (kvGetJ kv13 "regenerations.total_regens") with
      | some od, some rt => if 0 < rt then some (od / rt) else none
      | _, _ => none
  let adb3 : Option ℚ :=
    match adb2 with
    | some a => some a
    | none => (firstPresent kv13 avgDaysKeys).bind pyToFloat
  kvSet kv13 "calculated.average_days_between_regen_days" (optNumJ adb3)

/-- The body of the baseline-based fallback branch of the publish phase
(from the four absolute-calculation writes down to the
average-days-between write).  `b`, `w`, `t` are the baseline, the treated
total and the total capacity, all known present in this branch; `kvIn` is
the kv map after the `capacity_ist_ready` write. -/
def elifBody (st : PPState) (kvIn : Kv) (b w t : ℚ) (nowDt : ℚ) : PPState × Kv :=
  let used := max 0 (w - b)
  let rem1 := max 0 (t - used)
  let kv6 := kvSet kvIn "calculated.baseline_treated_total_l" (J.num b)
  let kv7 := kvSet kv6 "calculated.treated_used_since_regen_l" (J.num used)
  let kv8 := kvSet kv7 "calculated.treated_capacity_remaining_l" (J.num rem1)
  let kv9 := kvSet kv8 "calculated.treated_capacity_remaining_percent"
      (if 0 < t then J.num (rem1 / t * 100) else J.null)
  let cds := (cloudDaysOf kv9).bind pyToFloat
  let st1 := seedLastRegen st kv9 nowDt
  let st2 := daysDropStep st1 cds w t nowDt
  let stkv3 := daysSinceWrite st2 kv9 cds nowDt
  let kv12 := avgDailyWrite stkv3.1.dailyUsageHistory stkv3.2
  let stkv4 := bootstrapStep stkv3.1 kv12 cds w
  (stkv4.1, avgDaysBetweenWrite stkv4.1 stkv4.2)

/-- The `elif`/`else` tail of the publish phase: the fallback branch when
all of baseline, treated total and total capacity are present, the
baseline-only write, or nothing. -/
def publishRest (stD : PPState) (kv5 : Kv) (treated total : Option ℚ)
    (nowDt : ℚ) : PPState × Kv :=
  match stD.baselineTreatedTotalL, treated, total with
  | some b, some w, some t => elifBody stD kv5 b w t nowDt
  | some b, _, _ =>
    (stD, kvSet kv5 "calculated.baseline_treated_total_l" (J.num b))
  | _, _, _ => (stD, kv5)

/-- The publish phase of `_postprocess_calculations` (from the
`treated_capacity_total_l` write to the end of the function): writes the
derived kv keys and applies the delta-tracking / fallback / bootstrap state
updates. -/
def publishStep (st : PPState) (kv : Kv) (active : Bool) (regRem : ℚ)
    (nowDt : ℚ) : PPState × Kv :=
  let total := computeCapacityTotalL kv
  let kv1 :=
    match total with
    | some t => kvSet kv "calculated.treated_capacity_total_l" (J.num t)
    | none => kv
  let kv2 := kvSet kv1 "calculated.regen_time_remaining_secs" (J.num regRem)
  let kv3 := kvSet kv2 "calculated.regeneration_running" (J.bool active)
  let kv4 := kvSet kv3 "calculated.regeneration_status"
    (match regenStatusStr kv with | some s => J.str s | none => J.null)
  let treated := treatedTotalL kv
  let stD := deltaTrackStep st active treated
  let kv5 := kvSet kv4 "calculated.capacity_ist_ready" (J.bool stD.capacityIstReady)
  match total, stD.capacityRemainingL with
  | some t, some rem =>
    if stD.capacityIstReady then
      let remaining := max 0 (min t rem)
      let used := max 0 (t - remaining)
      let kv6 := kvSet kv5 "calculated.treated_used_since_regen_l" (J.num used)
      let kv7 := kvSet kv6 "calculated.treated_capacity_remaining_l" (J.num remaining)
      let kv8 := kvSet kv7 "calculated.treated_capacity_remaining_percent"
        (if 0 < t then J.num (remaining / t * 100) else J.null)
      let kv9 := kvSet kv8 "calculated.baseline_treated_total_l"
        (optNumJ stD.baselineTreatedTotalL)
      (stD, kv9)
    else publishRest stD kv5 treated total nowDt
  | _, _ => publishRest stD kv5 treated total nowDt

/-- `_postprocess_calculations` on a parsed `kv` map: `nowTs` is
`time.time()`, `nowDt` the `dt_util.now()` wall-clock instant in days,
`today` the ISO date string of the current day.  Returns the updated
coordinator state and the mutated kv map. -/
def postprocessCalc (st : PPState) (kv : Kv) (nowTs nowDt : ℚ)
    (today : String) : PPState × Kv :=
  let bumped := rechargeBumped st kv
  let st1 := cyclesStep st kv
  let regRem := regenRemOf kv
  let stAct := latchStep st1 kv nowTs
  let st2 := stAct.1
  let active := stAct.2
  let st3 := regenEdgeStep st2 kv active nowDt
  let st4 := bumpStep st3 kv active bumped
  let st5 := {st4 with regenActivePrev := active}
  let st6 := fix23Step st5 kv active bumped regRem today
  let st7 := dailyStep st6 kv today
  let st8 := inferBaselineStep st7 kv
  publishStep st8 kv active regRem nowDt

/-- One regen-end history entry accepted by `async_load_baseline`: a string
for which `parse_datetime` succeeds. -/
def histEntryOf (parseDT : String → Option ℚ) (e : J) : Option ℚ :=
  match e with
  | J.str s => parseDT s
  | _ => none

/-- Python `isinstance(v, str)`. -/
def isStrJ : J → Bool
  | J.str _ => true
  | _ => false

/-- The wrapped string (empty for non-strings; used only under `isStrJ`). -/
def asStrJ : J → String
  | J.str s => s
  | _ => ""

/-- Python `isinstance(v, list)`. -/
def isArrJ : J → Bool
  | J.arr _ => true
  | _ => false

/-- The wrapped list (empty for non-lists; used only under `isArrJ`). -/
def asArrJ : J → List J
  | J.arr xs => xs
  | _ => []

/-- One daily-usage entry accepted by `async_load_baseline`. -/
def dailyEntryOf (e : J) : Option (String × ℚ) :=
  match e with
  | J.obj _ =>
    match dictGetJ e "date" with
    | J.str d =>
      let l := dictGetJ e "liters"
      if isNull l then none else (pyFloat l).map (fun q => (d, q))
    | _ => none
  | _ => none

/-- The tail of `async_load_baseline` after the (unguarded) baseline float
conversion: the remaining optional field loads. -/
def loadRestPart (parseDT : String → Option ℚ) (data : J) (stA : PPState) :
    PPState :=
  let stB :=
    if pyTruthy (dictGetJ data "last_regen_end") then
      {stA with lastRegenEnd :=
        (match dictGetJ data "last_regen_end" with
         | J.str s => parseDT s
         | _ => none)}
    else stA
  let stC :=
    if isArrJ (dictGetJ data "regen_end_history") then
      {stB with regenEndHistory :=
        (pyLastN 30 ((asArrJ (dictGetJ data "regen_end_history")).filterMap
          (histEntryOf parseDT)))}
    else stB
  let stDq :=
    if isArrJ (dictGetJ data "daily_usage_history") then
      {stC with dailyUsageHistory :=
        (pyLastN 60 ((asArrJ (dictGetJ data "daily_usage_history")).filterMap
          dailyEntryOf))}
    else stC
  let stE :=
    if !(isNull (dictGetJ data "last_water_today_l")) then
      {stDq with lastWaterTodayL := pyFloat (dictGetJ data "last_water_today_l")}
    else stDq
  let stF :=
    if isStrJ (dictGetJ data "last_water_today_date") then
      {stE with lastWaterTodayDate := some (asStrJ (dictGetJ data "last_water_today_date"))}
    else stE
  let stG :=
    if !(isNull (dictGetJ data "capacity_ist_ready")) then
      {stF with capacityIstReady := pyTruthy (dictGetJ data "capacity_ist_ready")}
    else stF
  let stH :=
    if !(isNull (dictGetJ data "capacity_remaining_l")) then
      {stG with capacityRemainingL := pyFloat (dictGetJ data "capacity_remaining_l")}
    else stG
  let stI :=
    if !(isNull (dictGetJ data "water_total_last_l")) then
      {stH with waterTotalLastL := pyFloat (dictGetJ data "water_total_last_l")}
    else stH
  let stJq :=
    if isStrJ (dictGetJ data "last_capacity_reset_date") then
      {stI with lastCapacityResetDate := some (asStrJ (dictGetJ data "last_capacity_reset_date"))}
    else stI
  if !(isNull (dictGetJ data "last_total_capacity_l")) then
    {stJq with lastTotalCapacityL := pyFloat (dictGetJ data "last_total_capacity_l")}
  else stJq

/-- `async_load_baseline` applied to the stored record `data` (the value
returned by `Store.async_load`); `parseDT` models
`homeassistant.util.dt.parse_datetime`.  The unguarded
`float(data["baseline_treated_total_l"])` is outside any inner try, so a
failure there aborts the remainder of the load (outer `except`). -/
def loadBaseline (parseDT : String → Option ℚ) (data : J) (st : PPState) : PPState :=
  match data with
  | J.obj _ =>
    let v0 := dictGetJ data "baseline_treated_total_l"
    if isNull v0 then loadRestPart parseDT data st
    else
      match pyFloat v0 with
      | some q => loadRestPart parseDT data {st with baselineTreatedTotalL := some q}
      | none => st
  | _ => st

/-- The record written by `_async_save_baseline` (datetime serialization is
abstracted; histories are truncated exactly as in the source). -/
structure BaselineRecord where
  baselineTreatedTotalL : Option ℚ
  lastRegenEnd : Option ℚ
  regenEndHistory : List ℚ
  dailyUsageHistory : List (String × ℚ)
  lastWaterTodayL : Option ℚ
  lastWaterTodayDate : Option String
  capacityIstReady : Bool
  capacityRemainingL : Option ℚ
  waterTotalLastL : Option ℚ
  lastCapacityResetDate : Option String
  lastTotalCapacityL : Option ℚ

/-- `_async_save_baseline`. -/
def saveBaselineRecord (st : PPState) : BaselineRecord :=
  ⟨st.baselineTreatedTotalL, st.lastRegenEnd, pyLastN 30 st.regenEndHistory,
   pyLastN 60 st.dailyUsageHistory, st.lastWaterTodayL, st.lastWaterTodayDate,
   st.capacityIstReady, st.capacityRemainingL, st.waterTotalLastL,
   st.lastCapacityResetDate, st.lastTotalCapacityL⟩

/-- Spec-side restatement of the `_to_float` contract: `float(x)` for
int/float (a Python bool is an int), `None` for `None`, and for any other
value the string pipeline — strip whitespace, remove spaces, turn a lone
decimal comma (with no dot present) into a dot, then parse. -/
def toFloatSpec (v : J) : Option ℚ :=
  match v with
  | J.null => none
  | J.num q => some q
  | J.bool b => some (if b then 1 else 0)
  | v =>
    let s := removeSpaces (pyStrip (pyStr v))
    if s.toList.count ',' = 1 && s.toList.count '.' = 0 then
      pyParseFloat (String.mk (s.toList.map (fun c => if c = ',' then '.' else c)))
    else pyParseFloat s

/-- The (claim-side) flat list of kv contributions of a debug payload:
for each dict group with a list of items, in order, the canonical key and
extracted value of each kv-typed dict item. -/
def specContribs (gs : List J) : List (String × J) :=
  (gs.map groupEntries).flatten

/-- The value attached to the LAST occurrence of key `k` in the
contribution list (a later item with the same canonical key overwrites an
earlier one). -/
def lastAssoc (ps : List (String × J)) (k : String) : Option J :=
  (ps.reverse.find? (fun p => p.1 == k)).map Prod.snd

/-- A convenient all-fields-zero coordinator state (the freshly constructed
coordinator: empty histories, no baselines, latch clear). -/
def initPPState : PPState :=
  ⟨none, false, 0, 900, none, [], [], none, none, false, none, none, none,
   none, none, none, none⟩

/-- A concrete two-item debug group used to exercise the parser: both items
normalize to the canonical key `water_usage.treated_water`, the second one
overwriting the first. -/
def sampleGroups : List J := [J.obj [("key", J.str "Water_Usage"),
  ("items", J.arr [
    J.obj [("type", J.str "kv"), ("key", J.str "Treated_Water"),
      ("item_kv", J.obj [("value", J.num 123)])],
    J.obj [("type", J.str "kv"), ("key", J.str "treated_water"),
      ("item_kv", J.obj [("value", J.num 456)])]])]]

/-- A concrete debug payload wrapping `sampleGroups`. -/
def samplePayload : J := J.obj [("groups", J.arr sampleGroups)]

/-- A coordinator state with an established baseline of 100 L and a
previously seen recharge-cycle counter of 9. -/
def cexPPState : PPState :=
  {initPPState with baselineTreatedTotalL := some 100, lastRechargeCycles := some 9}

/-- A kv map with a treated-water total of 500 L, a bumped recharge-cycle
counter of 10, and no capacity/hardness keys (so the computed total
capacity is unavailable). -/
def cexKv : Kv := [("water_usage.treated_water", J.num 500),
  ("regenerations.second_backwash_cycles", J.num 10)]

/-- A coordinator state that was regenerating at the previous poll. -/
def cexPrevState : PPState := {initPPState with regenActivePrev := true}

end IquaSoft

namespace IquaSoft

/-! ## Helper lemmas -/

theorem alGet_alSet_self {α : Type} (m : List (String × α)) (k : String) (v : α) :
    alGet (alSet m k v) k = some v := by
  induction m with
  | nil => simp [alGet, alSet]
  | cons p t ih =>
    obtain ⟨k0, v0⟩ := p
    by_cases h : k0 = k <;> simp [alGet, alSet, h, ih]

theorem alGet_alSet_ne {α : Type} (m : List (String × α)) (k k2 : String) (v : α)
    (h : k ≠ k2) : alGet (alSet m k v) k2 = alGet m k2 := by
  induction m with
  | nil => simp [alGet, alSet, h]
  | cons p t ih =>
    obtain ⟨k0, v0⟩ := p
    by_cases h0 : k0 = k
    · subst h0
      simp [alGet, alSet, h]
    · simp only [alSet, if_neg h0]
      by_cases h2 : k0 = k2 <;> simp [alGet, h2, ih]

theorem pyLastN_length_le {α : Type} (n : Nat) (xs : List α) :
    (pyLastN n xs).length ≤ n := by
  simp only [pyLastN, List.length_drop]
  omega

theorem pyLastN_suffix {α : Type} (n : Nat) (xs : List α) :
    (pyLastN n xs) <:+ xs := List.drop_suffix _ _

theorem lastAssoc_cons (a : String) (b : J) (t : List (String × J)) (k : String) :
    lastAssoc ((a, b) :: t) k =
      ((lastAssoc t k).or (if a = k then some b else none)) := by
  simp only [lastAssoc, List.reverse_cons, List.find?_append]
  cases h : t.reverse.find? (fun p => p.1 == k) with
  | some p => simp [Option.or]
  | none =>
    by_cases hak : a = k
    · simp [Option.or, List.find?, hak]
    · have hb : (a == k) = false := beq_eq_false_iff_ne.mpr hak
      simp [Option.or, List.find?, hb, hak]

theorem lastAssoc_eq_none {ps : List (String × J)} {k : String}
    (h : ∀ p ∈ ps, p.1 ≠ k) : lastAssoc ps k = none := by
  simp only [lastAssoc]
  rw [List.find?_eq_none.mpr]
  · rfl
  · intro x hx
    have := h x (List.mem_reverse.mp hx)
    simpa using this

theorem alGet_foldl_alSet (ps : List (String × J)) (m0 : Kv) (k : String) :
    alGet (ps.foldl (fun m p => alSet m p.1 p.2) m0) k =
      (match lastAssoc ps k with
       | some v => some v
       | none => alGet m0 k) := by
  induction ps generalizing m0 with
  | nil => rfl
  | cons p t ih =>
    obtain ⟨a, b⟩ := p
    rw [List.foldl_cons, ih, lastAssoc_cons]
    cases h : lastAssoc t k with
    | some v => simp [Option.or]
    | none =>
      by_cases hak : a = k
      · simp [Option.or, hak, alGet_alSet_self]
      · simp [Option.or, hak, alGet_alSet_ne _ _ _ _ hak]

theorem specContribs_cons (g : J) (gs : List J) :
    specContribs (g :: gs) = groupEntries g ++ specContribs gs := by
  simp [specContribs]

theorem kvOfGroups_eq_foldl (gs : List J) :
    kvOfGroups gs = (specContribs gs).foldl (fun m p => alSet m p.1 p.2) [] := by
  suffices h : ∀ m0 : Kv, gs.foldl
      (fun m g => (groupEntries g).foldl (fun m2 p => alSet m2 p.1 p.2) m) m0 =
      (specContribs gs).foldl (fun m p => alSet m p.1 p.2) m0 from h []
  induction gs with
  | nil => intro m0; rfl
  | cons g t ih =>
    intro m0
    rw [List.foldl_cons, specContribs_cons, List.foldl_append]
    exact ih _

/-- The kv map built by the parse loop looks up exactly the last
contribution per key. -/
theorem kvGet_kvOfGroups (gs : List J) (k : String) :
    kvGet (kvOfGroups gs) k = lastAssoc (specContribs gs) k := by
  rw [kvOfGroups_eq_foldl]
  show alGet _ _ = _
  rw [alGet_foldl_alSet]
  cases lastAssoc (specContribs gs) k <;> rfl

theorem kvGet_alias_ne (kv : Kv) (k : String)
    (h : k ≠ "customer.time_message_received") :
    kvGet (aliasTimeMsg kv) k = kvGet kv k := by
  unfold aliasTimeMsg
  split
  · rfl
  · split
    · exact alGet_alSet_ne _ _ _ _ (Ne.symm h)
    · rfl

theorem kvGet_alias_present (kv : Kv) (v : J)
    (h : kvGet kv "customer.time_message_received" = some v) :
    kvGet (aliasTimeMsg kv) "customer.time_message_received" = some v := by
  unfold aliasTimeMsg
  rw [if_pos (by rw [h]; rfl)]
  exact h

/-! ## C1: `_parse_debug_json` builds the canonical flat kv map -/

/-- C1: for every dict payload whose `groups` value is a list,
`_parse_debug_json` succeeds and returns a flat map `kv` in which every
kv-typed dict item of every dict group with a list of items stores its
extracted value under `CANONICAL_KV_MAP[(normalized group key, normalized
item key)]` when mapped and under `"<group>.<item>"` otherwise, with a later
item overwriting an earlier one with the same canonical key (`lastAssoc` of
the in-order contribution list `specContribs`); skipped constructs
contribute no entry, so any key with no contribution (other than the
aliased timestamp key) is absent. -/
theorem parse_debug_kv_canonical (payload : J) (gs : List J)
    (hobj : ∃ fs, payload = J.obj fs)
    (hgs : dictGetD payload "groups" (J.arr []) = J.arr gs) :
    ∃ kv tbls, parseDebugJson payload = Except.ok (kv, tbls) ∧
      (∀ k v, lastAssoc (specContribs gs) k = some v → kvGet kv k = some v) ∧
      (∀ k, (∀ p ∈ specContribs gs, p.1 ≠ k) →
        k ≠ "customer.time_message_received" → kvGet kv k = none) := by
  obtain ⟨fs, rfl⟩ := hobj
  refine ⟨aliasTimeMsg (kvOfGroups gs), parseTables gs, ?_, ?_, ?_⟩
  · simp only [parseDebugJson]
    rw [hgs]
  · intro k v hlast
    by_cases hk : k = "customer.time_message_received"
    · subst hk
      exact kvGet_alias_present _ _ (by rw [kvGet_kvOfGroups, hlast])
    · rw [kvGet_alias_ne _ _ hk, kvGet_kvOfGroups, hlast]
  · intro k hnone hk
    rw [kvGet_alias_ne _ _ hk, kvGet_kvOfGroups, lastAssoc_eq_none hnone]

/-- Witness for `parse_debug_kv_canonical`: a two-item payload where the
second `treated_water` item overwrites the first under the canonical key,
and an unrelated key is absent. -/
theorem parse_debug_kv_canonical_witness :
    dictGetD samplePayload "groups" (J.arr []) = J.arr sampleGroups ∧
    ∃ kv tbls, parseDebugJson samplePayload = Except.ok (kv, tbls) ∧
      kvGet kv "water_usage.treated_water" = some (J.num 456) ∧
      kvGet kv "salt_usage.salt_total" = none := by
  refine ⟨rfl, ?_⟩
  obtain ⟨kv, tbls, hok, hpos, hneg⟩ :=
    parse_debug_kv_canonical samplePayload sampleGroups
      ⟨[("groups", J.arr sampleGroups)], rfl⟩ rfl
  refine ⟨kv, tbls, hok, ?_, ?_⟩
  · exact hpos "water_usage.treated_water" (J.num 456) rfl
  · refine hneg "salt_usage.salt_total" ?_ (by decide)
    intro p hp
    have hc : specContribs sampleGroups =
        [("water_usage.treated_water", J.num 123),
         ("water_usage.treated_water", J.num 456)] := rfl
    rw [hc] at hp
    rcases List.mem_cons.mp hp with hp1 | hp1
    · rw [hp1]
      decide
    · rcases List.mem_cons.mp hp1 with hp2 | hp2
      · rw [hp2]
        decide
      · simp at hp2

/-! ## C10: totality and behaviour of `_to_float` -/

/-- C10: the coordinator `_to_float` helper is total — for every input it
returns either a float or `None` (it never raises) — and it follows the
claimed pipeline exactly: `float(x)` for int/float inputs (a bool is an
int), `None` for `None`, and otherwise convert via `str`, strip whitespace,
remove spaces, replace a decimal comma by a dot exactly when the string has
exactly one comma and no dot, and return the parsed float or `None`. -/
theorem toFloat_total_and_spec :
    ∀ v : J, pyToFloat v = toFloatSpec v ∧
      (pyToFloat v = none ∨ ∃ q : ℚ, pyToFloat v = some q) := by
  intro v
  refine ⟨?_, ?_⟩
  · cases v <;>
      first
        | rfl
        | (simp only [pyToFloat, toFloatSpec]
           rw [apply_ite pyParseFloat])
  · rcases h : pyToFloat v with _ | q
    · exact Or.inl rfl
    · exact Or.inr ⟨q, rfl⟩

/-! ## C2: `_async_update_data` exception discipline -/

/-- C2 (amended): both `_async_update_data` implementations propagate no
exception type other than `UpdateFailed`.  The main coordinator re-raises
an `UpdateFailed` from the body unchanged and wraps every other exception;
the legacy `src/coordinator.py` has no dedicated `UpdateFailed` clause, so
it wraps every caught exception — including an `UpdateFailed` — into a new
`UpdateFailed` with a `Get data failed (...)` message. -/
theorem updateData_only_updateFailed :
    (∀ (r : Except PyExc J) (e : PyExc),
      asyncUpdateData r = .error e → e.isUpdateFailed = true) ∧
    (∀ (r : Except PyExc J) (e : PyExc),
      legacyUpdateData r = .error e → e.isUpdateFailed = true) ∧
    (∀ m : String,
      asyncUpdateData (.error (.updateFailed m)) = .error (.updateFailed m)) ∧
    (∀ e : PyExc,
      (∃ m, asyncUpdateData (.error e) = .error (.updateFailed m)) ∧
      (∃ m, legacyUpdateData (.error e) = .error (.updateFailed m))) ∧
    (∀ m : String, legacyUpdateData (.error (.updateFailed m)) =
      .error (.updateFailed ("Get data failed (UpdateFailed): " ++ m))) := by
  refine ⟨?_, ?_, ?_, ?_, ?_⟩
  · intro r e h
    cases r with
    | ok d => simp [asyncUpdateData] at h
    | error e0 =>
      cases e0 <;> simp [asyncUpdateData] at h <;> simp [← h, PyExc.isUpdateFailed]
  · intro r e h
    cases r with
    | ok d => simp [legacyUpdateData] at h
    | error e0 =>
      cases e0 <;> simp [legacyUpdateData] at h <;> simp [← h, PyExc.isUpdateFailed]
  · intro m
    rfl
  · intro e
    cases e <;> exact ⟨⟨_, rfl⟩, ⟨_, rfl⟩⟩
  · intro m
    rfl

/-- C2 counterexample to the claim as stated: in the legacy coordinator an
`UpdateFailed` raised by the fetch is not re-raised unchanged; it is caught
by the generic `except Exception` clause and wrapped into a new
`UpdateFailed` with a different message. -/
theorem legacy_updateFailed_wrapped_cex :
    legacyUpdateData (.error (.updateFailed "boom")) ≠
      .error (.updateFailed "boom") ∧
    legacyUpdateData (.error (.updateFailed "boom")) =
      .error (.updateFailed "Get data failed (UpdateFailed): boom") := by
  constructor
  · intro h
    have h2 : legacyUpdateData (.error (.updateFailed "boom")) =
        .error (.updateFailed "Get data failed (UpdateFailed): boom") := rfl
    rw [h2] at h
    simp only [Except.error.injEq, PyExc.updateFailed.injEq] at h
    exact absurd h (by decide)
  · rfl

/-- Witness for `updateData_only_updateFailed` at concrete inputs. -/
theorem updateData_only_updateFailed_witness :
    (PyExc.updateFailed "x").isUpdateFailed = true ∧
    asyncUpdateData (.error (.updateFailed "x")) = .error (.updateFailed "x") := by
  refine ⟨?_, updateData_only_updateFailed.2.2.1 "x"⟩
  exact updateData_only_updateFailed.1 (.error (.updateFailed "x"))
    (.updateFailed "x") rfl

/-! ## C6: `_ewma_update` -/

/-- C6: `_ewma_update` stores and returns the sample when there is no prior
value or timestamp; it returns the previous value and leaves the state
unchanged when no time advanced or the time constant is non-positive; and
otherwise it returns and stores `prev + (1 - exp(-dt/tau)) * (x - prev)`,
which lies (inclusively) between the previous value and the sample
whenever `exp` of the non-positive argument lies in `[0, 1]`. -/
theorem ewma_update_spec (expFn : ℚ → ℚ) (st : EwmaState) (x nowTs tau : ℚ) :
    (st.value = none ∨ st.ts = none →
      ewmaUpdate expFn st x nowTs tau = (x, ⟨some x, some nowTs⟩)) ∧
    (∀ prev prevTs, st.value = some prev → st.ts = some prevTs →
      ((nowTs - prevTs ≤ 0 ∨ tau ≤ 0) →
        ewmaUpdate expFn st x nowTs tau = (prev, st)) ∧
      (0 < nowTs - prevTs → 0 < tau →
        0 ≤ expFn (-((nowTs - prevTs) / tau)) →
        expFn (-((nowTs - prevTs) / tau)) ≤ 1 →
        (ewmaUpdate expFn st x nowTs tau).1 =
          prev + (1 - expFn (-((nowTs - prevTs) / tau))) * (x - prev) ∧
        (ewmaUpdate expFn st x nowTs tau).2 =
          ⟨some ((ewmaUpdate expFn st x nowTs tau).1), some nowTs⟩ ∧
        min prev x ≤ (ewmaUpdate expFn st x nowTs tau).1 ∧
        (ewmaUpdate expFn st x nowTs tau).1 ≤ max prev x)) := by
  obtain ⟨v0, t0⟩ := st
  constructor
  · rintro (h | h) <;> simp only at h <;> subst h
    · cases t0 <;> rfl
    · cases v0 <;> rfl
  · intro prev prevTs hv ht
    simp only at hv ht
    subst hv
    subst ht
    constructor
    · intro h
      have hdt : max (nowTs - prevTs) 0 ≤ 0 ∨ tau ≤ 0 := by
        rcases h with h | h
        · exact Or.inl (by simpa using h)
        · exact Or.inr h
      simp only [ewmaUpdate]
      rw [if_pos]
      rcases hdt with h2 | h2
      · exact Or.inl h2
      · exact Or.inr h2
    · intro hdt htau h0 h1
      have hmax : max (nowTs - prevTs) 0 = nowTs - prevTs :=
        max_eq_left (le_of_lt hdt)
      have hcond2 : ¬(nowTs - prevTs ≤ 0 ∨ tau ≤ 0) := by
        push_neg
        exact ⟨hdt, htau⟩
      have hred : ewmaUpdate expFn ⟨some prev, some prevTs⟩ x nowTs tau =
          (prev + (1 - expFn (-((nowTs - prevTs) / tau))) * (x - prev),
           ⟨some (prev + (1 - expFn (-((nowTs - prevTs) / tau))) * (x - prev)),
            some nowTs⟩) := by
        simp only [ewmaUpdate, hmax]
        rw [if_neg hcond2]
      rw [hred]
      dsimp only
      set e := expFn (-((nowTs - prevTs) / tau)) with he
      refine ⟨rfl, rfl, ?_, ?_⟩
      · rcases le_total prev x with hc | hc
        · rw [min_eq_left hc]
          nlinarith
        · rw [min_eq_right hc]
          nlinarith
      · rcases le_total prev x with hc | hc
        · rw [max_eq_right hc]
          nlinarith
        · rw [max_eq_left hc]
          nlinarith

/-- Witness for `ewma_update_spec`: a fresh state stores the sample, and a
step with `exp` valued 1/2 lands between the previous value and the
sample. -/
theorem ewma_update_spec_witness :
    ewmaUpdate (fun _ => 1 / 2) ⟨none, none⟩ 5 100 3600 = (5, ⟨some 5, some 100⟩) ∧
    min (0 : ℚ) 2 ≤ (ewmaUpdate (fun _ => 1 / 2) ⟨some 0, some 0⟩ 2 1 1).1 ∧
    (ewmaUpdate (fun _ => 1 / 2) ⟨some 0, some 0⟩ 2 1 1).1 ≤ max (0 : ℚ) 2 := by
  have h1 := (ewma_update_spec (fun _ => 1 / 2) ⟨none, none⟩ 5 100 3600).1
    (Or.inl rfl)
  have h2 := ((ewma_update_spec (fun _ => 1 / 2) ⟨some 0, some 0⟩ 2 1 1).2 0 0
    rfl rfl).2 (by norm_num) (by norm_num) (by norm_num) (by norm_num)
  exact ⟨h1, h2.2.2.1, h2.2.2.2⟩

/-! ## C3: HTTP 429 exponential backoff in `_get` -/

/-- C3: on an HTTP 429 response `_rl_hits` is incremented with a cap of 10;
the pre-jitter backoff is `min(900, 60 * 2^(rl_hits - 1))`, raised to the
`Retry-After` header value when that parses as a float; a jitter in
`[0, 10]` is added; `_rl_until` becomes the current time plus the total
duration; and the call raises `UpdateFailed`.  On an HTTP 200 response all
three rate-limit fields are reset to zero. -/
theorem rate_limit_429_backoff (st : RlState) (r : HttpResp) (j now2 : ℚ)
    (hj0 : 0 ≤ j) (hj1 : j ≤ 10) :
    (r.status = 429 →
      (respDispatch st r j now2).2.rlHits = min (st.rlHits + 1) 10 ∧
      (respDispatch st r j now2).2.rlBackoff =
        (match retryAfterParsed r with
         | some ra => max (min (900 : ℚ) (60 * 2 ^ (min (st.rlHits + 1) 10 - 1))) ra
         | none => min (900 : ℚ) (60 * 2 ^ (min (st.rlHits + 1) 10 - 1))) + j ∧
      (match retryAfterParsed r with
       | some ra => max (min (900 : ℚ) (60 * 2 ^ (min (st.rlHits + 1) 10 - 1))) ra
       | none => min (900 : ℚ) (60 * 2 ^ (min (st.rlHits + 1) 10 - 1))) ≤
        (respDispatch st r j now2).2.rlBackoff ∧
      (respDispatch st r j now2).2.rlBackoff ≤
        (match retryAfterParsed r with
         | some ra => max (min (900 : ℚ) (60 * 2 ^ (min (st.rlHits + 1) 10 - 1))) ra
         | none => min (900 : ℚ) (60 * 2 ^ (min (st.rlHits + 1) 10 - 1))) + 10 ∧
      (respDispatch st r j now2).2.rlUntil =
        now2 + (respDispatch st r j now2).2.rlBackoff ∧
      ∃ m, (respDispatch st r j now2).1 = .error m) ∧
    (r.status = 200 → (respDispatch st r j now2).2 = ⟨0, 0, 0⟩) := by
  constructor
  · intro h429
    rcases hra : retryAfterParsed r with _ | ra
    · have hred : respDispatch st r j now2 =
          (Except.error "GET failed: HTTP 429",
           ⟨min (st.rlHits + 1) 10,
            min (900 : ℚ) (60 * 2 ^ (min (st.rlHits + 1) 10 - 1)) + j,
            now2 + (min (900 : ℚ) (60 * 2 ^ (min (st.rlHits + 1) 10 - 1)) + j)⟩) := by
        simp [respDispatch, h429, hra]
      simp only [hra, hred]
      refine ⟨trivial, trivial, by linarith, by linarith, trivial, ?_⟩
      exact ⟨"GET failed: HTTP 429", rfl⟩
    · have hred : respDispatch st r j now2 =
          (Except.error "GET failed: HTTP 429",
           ⟨min (st.rlHits + 1) 10,
            max (min (900 : ℚ) (60 * 2 ^ (min (st.rlHits + 1) 10 - 1))) ra + j,
            now2 + (max (min (900 : ℚ) (60 * 2 ^ (min (st.rlHits + 1) 10 - 1))) ra + j)⟩) := by
        simp [respDispatch, h429, hra]
      simp only [hra, hred]
      refine ⟨trivial, trivial, by linarith, by linarith, trivial, ?_⟩
      exact ⟨"GET failed: HTTP 429", rfl⟩
  · intro h200
    have : ¬(r.status = 429) := by omega
    simp [respDispatch, this, h200]

/-- Witness for `rate_limit_429_backoff`: a concrete 429 with
`Retry-After: 300` and jitter 5, and a concrete 200 reset. -/
theorem rate_limit_429_backoff_witness :
    ((0 : ℚ) ≤ 5 ∧ (5 : ℚ) ≤ 10) ∧
    (respDispatch ⟨0, 0, 0⟩ ⟨429, some "300"⟩ 5 1000).2.rlHits = 1 ∧
    (respDispatch ⟨0, 0, 0⟩ ⟨429, some "300"⟩ 5 1000).2.rlUntil =
      1000 + (respDispatch ⟨0, 0, 0⟩ ⟨429, some "300"⟩ 5 1000).2.rlBackoff ∧
    (respDispatch ⟨3, 125, 2000⟩ ⟨200, none⟩ 5 1000).2 = ⟨0, 0, 0⟩ := by
  have h := rate_limit_429_backoff ⟨0, 0, 0⟩ ⟨429, some "300"⟩ 5 1000
    (by norm_num) (by norm_num)
  have h2 := rate_limit_429_backoff ⟨3, 125, 2000⟩ ⟨200, none⟩ 5 1000
    (by norm_num) (by norm_num)
  refine ⟨⟨by norm_num, by norm_num⟩, ?_, (h.1 rfl).2.2.2.2.1, h2.2 rfl⟩
  have := (h.1 rfl).1
  simpa using this

/-! ## C4: the backoff window blocks requests -/

/-- C4: while the backoff window is active (now strictly before a non-zero
`_rl_until`) every `_get` call raises `UpdateFailed` with zero HTTP
requests issued and unchanged state; and the window value only ever changes
by being cleared to zero after an HTTP 200 or by being pushed strictly
beyond the current time on an HTTP 429 (so it otherwise ends only by
expiry). -/
theorem backoff_window_blocks (st : RlState) (now : ℚ) (useToken : Bool)
    (r1 r2 : HttpResp) (loginOk : Bool) (j now2 : ℚ) (hj0 : 0 ≤ j) :
    (windowActive st now = true →
      pyGet st now useToken r1 r2 loginOk j now2 =
        (.error "GET failed: HTTP 429 (backoff active)", st, 0)) ∧
    (∀ res st2 n, pyGet st now useToken r1 r2 loginOk j now2 = (res, st2, n) →
      st2.rlUntil ≠ st.rlUntil →
      ((finalRespOf useToken r1 r2).status = 200 ∧ st2.rlUntil = 0) ∨
      ((finalRespOf useToken r1 r2).status = 429 ∧ now2 < st2.rlUntil)) := by
  have hbase : ∀ hits : Nat, (60 : ℚ) ≤ min (900 : ℚ) (60 * 2 ^ hits) := by
    intro hits
    have h1 : (1 : ℚ) ≤ 2 ^ hits := one_le_pow₀ (by norm_num)
    have : (60 : ℚ) ≤ 60 * 2 ^ hits := by nlinarith
    exact le_min (by norm_num) this
  have hdisp : ∀ r : HttpResp,
      (respDispatch st r j now2).2.rlUntil ≠ st.rlUntil →
      (r.status = 200 ∧ (respDispatch st r j now2).2.rlUntil = 0) ∨
      (r.status = 429 ∧ now2 < (respDispatch st r j now2).2.rlUntil) := by
    intro r hne
    by_cases h429 : r.status = 429
    · refine Or.inr ⟨h429, ?_⟩
      simp only [respDispatch, if_pos h429]
      rcases hra : retryAfterParsed r with _ | ra <;> simp only [hra]
      · have := hbase (min (st.rlHits + 1) 10 - 1)
        linarith
      · have := hbase (min (st.rlHits + 1) 10 - 1)
        have hle : min (900 : ℚ) (60 * 2 ^ (min (st.rlHits + 1) 10 - 1)) ≤
            max (min (900 : ℚ) (60 * 2 ^ (min (st.rlHits + 1) 10 - 1))) ra :=
          le_max_left _ _
        linarith
    · by_cases h200 : r.status = 200
      · refine Or.inl ⟨h200, ?_⟩
        simp [respDispatch, h429, h200]
      · exfalso
        apply hne
        simp [respDispatch, h429, h200]
  constructor
  · intro hw
    simp [pyGet, hw]
  · intro res st2 n heq hne
    by_cases hw : windowActive st now = true
    · rw [pyGet, if_pos hw] at heq
      have hst2 : st = st2 := congrArg (fun p => p.2.1) heq
      exact absurd (by rw [← hst2]) hne
    · rw [pyGet, if_neg hw] at heq
      by_cases hauth : (useToken && (r1.status = 401 || r1.status = 403)) = true
      · rw [if_pos hauth] at heq
        by_cases hlog : loginOk = true
        · rw [if_pos hlog] at heq
          have hst2 : (respDispatch st r2 j now2).2 = st2 :=
            congrArg (fun p => p.2.1) heq
          have hfin : finalRespOf useToken r1 r2 = r2 := by
            simp only [finalRespOf]
            rw [if_pos]
            simpa using hauth
          rw [hfin, ← hst2]
          exact hdisp r2 (by rw [hst2]; exact hne)
        · rw [if_neg hlog] at heq
          have hst2 : st = st2 := congrArg (fun p => p.2.1) heq
          exact absurd (by rw [← hst2]) hne
      · rw [if_neg hauth] at heq
        have hst2 : (respDispatch st r1 j now2).2 = st2 :=
          congrArg (fun p => p.2.1) heq
        have hfin : finalRespOf useToken r1 r2 = r1 := by
          simp only [finalRespOf]
          rw [if_neg]
          simpa using hauth
        rw [hfin, ← hst2]
        exact hdisp r1 (by rw [hst2]; exact hne)

/-- Witness for `backoff_window_blocks`: with an active window the call
fails with zero requests and the state untouched. -/
theorem backoff_window_blocks_witness :
    windowActive ⟨2, 120, 5000⟩ 4000 = true ∧
    pyGet ⟨2, 120, 5000⟩ 4000 true ⟨200, none⟩ ⟨200, none⟩ true 5 4001 =
      (.error "GET failed: HTTP 429 (backoff active)", ⟨2, 120, 5000⟩, 0) := by
  refine ⟨rfl, ?_⟩
  exact (backoff_window_blocks ⟨2, 120, 5000⟩ 4000 true ⟨200, none⟩ ⟨200, none⟩
    true 5 4001 (by norm_num)).1 rfl

/-! ## Step lemmas: how each postprocess block treats the history lists -/

theorem cyclesStep_hist (st : PPState) (kv : Kv) :
    (cyclesStep st kv).regenEndHistory = st.regenEndHistory ∧
    (cyclesStep st kv).dailyUsageHistory = st.dailyUsageHistory := by
  unfold cyclesStep
  split <;> exact ⟨rfl, rfl⟩

theorem latchStep_hist (st : PPState) (kv : Kv) (t : ℚ) :
    (latchStep st kv t).1.regenEndHistory = st.regenEndHistory ∧
    (latchStep st kv t).1.dailyUsageHistory = st.dailyUsageHistory := by
  simp only [latchStep]
  split <;> split <;> exact ⟨rfl, rfl⟩

theorem regenEdgeStep_hist (st : PPState) (kv : Kv) (a : Bool) (d : ℚ) :
    ((regenEdgeStep st kv a d).regenEndHistory = st.regenEndHistory ∨
      (regenEdgeStep st kv a d).regenEndHistory =
        pyLastN 30 (st.regenEndHistory ++ [d])) ∧
    (regenEdgeStep st kv a d).dailyUsageHistory = st.dailyUsageHistory := by
  constructor
  · simp only [regenEdgeStep]
    repeat' split <;> try (first | exact Or.inl rfl | exact Or.inr rfl)
  · simp only [regenEdgeStep]
    repeat' split <;> try rfl

theorem bumpStep_hist (st : PPState) (kv : Kv) (a b : Bool) :
    (bumpStep st kv a b).regenEndHistory = st.regenEndHistory ∧
    (bumpStep st kv a b).dailyUsageHistory = st.dailyUsageHistory := by
  refine ⟨?_, ?_⟩ <;>
    (simp only [bumpStep]
     repeat' split <;> try rfl)

theorem fix23Step_hist (st : PPState) (kv : Kv) (a b : Bool) (rr : ℚ)
    (td : String) :
    (fix23Step st kv a b rr td).regenEndHistory = st.regenEndHistory ∧
    (fix23Step st kv a b rr td).dailyUsageHistory = st.dailyUsageHistory := by
  refine ⟨?_, ?_⟩ <;>
    (simp only [fix23Step]
     repeat' split <;> try rfl)

theorem dailyStep_hist (st : PPState) (kv : Kv) (td : String) :
    (dailyStep st kv td).regenEndHistory = st.regenEndHistory ∧
    ((dailyStep st kv td).dailyUsageHistory = st.dailyUsageHistory ∨
      ∃ xs, (dailyStep st kv td).dailyUsageHistory = pyLastN 60 xs) := by
  constructor
  · simp only [dailyStep]
    repeat' split <;> try rfl
  · simp only [dailyStep]
    repeat' split <;> try (first | exact Or.inl rfl | exact Or.inr ⟨_, rfl⟩)

theorem inferBaselineStep_hist (st : PPState) (kv : Kv) :
    (inferBaselineStep st kv).regenEndHistory = st.regenEndHistory ∧
    (inferBaselineStep st kv).dailyUsageHistory = st.dailyUsageHistory := by
  refine ⟨?_, ?_⟩ <;>
    (simp only [inferBaselineStep]
     repeat' split <;> try rfl)

theorem deltaTrackStep_hist (st : PPState) (a : Bool) (tr : Option ℚ) :
    (deltaTrackStep st a tr).regenEndHistory = st.regenEndHistory ∧
    (deltaTrackStep st a tr).dailyUsageHistory = st.dailyUsageHistory := by
  refine ⟨?_, ?_⟩ <;>
    (simp only [deltaTrackStep]
     repeat' split <;> try rfl)

theorem seedLastRegen_hist (st : PPState) (kv9 : Kv) (d : ℚ) :
    (seedLastRegen st kv9 d).regenEndHistory = st.regenEndHistory ∧
    (seedLastRegen st kv9 d).dailyUsageHistory = st.dailyUsageHistory := by
  refine ⟨?_, ?_⟩ <;>
    (simp only [seedLastRegen]
     repeat' split <;> try rfl)

theorem daysDropStep_hist (st1 : PPState) (cds : Option ℚ) (w t d : ℚ) :
    ((daysDropStep st1 cds w t d).regenEndHistory = st1.regenEndHistory ∨
      (daysDropStep st1 cds w t d).regenEndHistory =
        pyLastN 30 (st1.regenEndHistory ++ [d])) ∧
    (daysDropStep st1 cds w t d).dailyUsageHistory = st1.dailyUsageHistory := by
  constructor
  · simp only [daysDropStep]
    repeat' split <;> try (first | exact Or.inl rfl | exact Or.inr rfl)
  · simp only [daysDropStep]
    repeat' split <;> try rfl

theorem daysSinceWrite_hist (st2 : PPState) (kv9 : Kv) (cds : Option ℚ) (d : ℚ) :
    (daysSinceWrite st2 kv9 cds d).1.regenEndHistory = st2.regenEndHistory ∧
    (daysSinceWrite st2 kv9 cds d).1.dailyUsageHistory = st2.dailyUsageHistory := by
  refine ⟨?_, ?_⟩ <;>
    (simp only [daysSinceWrite]
     repeat' split <;> try rfl)

theorem bootstrapStep_hist (st3 : PPState) (kv12 : Kv) (cds : Option ℚ) (w : ℚ) :
    (bootstrapStep st3 kv12 cds w).1.regenEndHistory = st3.regenEndHistory ∧
    (bootstrapStep st3 kv12 cds w).1.dailyUsageHistory = st3.dailyUsageHistory := by
  refine ⟨?_, ?_⟩ <;>
    (simp only [bootstrapStep]
     repeat' split <;> try rfl)

theorem elifChain_hist (st : PPState) (kv9 kv12 : Kv) (cds : Option ℚ)
    (w t d : ℚ) :
    ((bootstrapStep (daysSinceWrite (daysDropStep (seedLastRegen st kv9 d)
          cds w t d) kv9 cds d).1 kv12 cds w).1.regenEndHistory =
        st.regenEndHistory ∨
      (bootstrapStep (daysSinceWrite (daysDropStep (seedLastRegen st kv9 d)
          cds w t d) kv9 cds d).1 kv12 cds w).1.regenEndHistory =
        pyLastN 30 (st.regenEndHistory ++ [d])) ∧
    (bootstrapStep (daysSinceWrite (daysDropStep (seedLastRegen st kv9 d)
        cds w t d) kv9 cds d).1 kv12 cds w).1.dailyUsageHistory =
      st.dailyUsageHistory := by
  obtain ⟨hs1, hs2⟩ := seedLastRegen_hist st kv9 d
  obtain ⟨hd1, hd2⟩ := daysDropStep_hist (seedLastRegen st kv9 d) cds w t d
  obtain ⟨hw1, hw2⟩ := daysSinceWrite_hist (daysDropStep (seedLastRegen st kv9 d)
    cds w t d) kv9 cds d
  obtain ⟨hb1, hb2⟩ := bootstrapStep_hist (daysSinceWrite (daysDropStep
    (seedLastRegen st kv9 d) cds w t d) kv9 cds d).1 kv12 cds w
  rw [hb1, hb2, hw1, hw2, hd2, hs2]
  rcases hd1 with h | h
  · rw [h, hs1]
    exact ⟨Or.inl rfl, rfl⟩
  · rw [h, hs1]
    exact ⟨Or.inr rfl, rfl⟩

theorem elifBody_hist (st : PPState) (kvIn : Kv) (b w t d : ℚ) :
    ((elifBody st kvIn b w t d).1.regenEndHistory = st.regenEndHistory ∨
      (elifBody st kvIn b w t d).1.regenEndHistory =
        pyLastN 30 (st.regenEndHistory ++ [d])) ∧
    (elifBody st kvIn b w t d).1.dailyUsageHistory = st.dailyUsageHistory := by
  simp only [elifBody]
  exact elifChain_hist st _ _ _ w t d

theorem publishRest_hist (stD : PPState) (kv5 : Kv) (treated total : Option ℚ)
    (d : ℚ) :
    ((publishRest stD kv5 treated total d).1.regenEndHistory =
        stD.regenEndHistory ∨
      (publishRest stD kv5 treated total d).1.regenEndHistory =
        pyLastN 30 (stD.regenEndHistory ++ [d])) ∧
    (publishRest stD kv5 treated total d).1.dailyUsageHistory =
      stD.dailyUsageHistory := by
  simp only [publishRest]
  split
  · exact elifBody_hist _ _ _ _ _ _
  · exact ⟨Or.inl rfl, rfl⟩
  · exact ⟨Or.inl rfl, rfl⟩

theorem publishStep_hist (st : PPState) (kv : Kv) (a : Bool) (rr d : ℚ) :
    ((publishStep st kv a rr d).1.regenEndHistory = st.regenEndHistory ∨
      (publishStep st kv a rr d).1.regenEndHistory =
        pyLastN 30 (st.regenEndHistory ++ [d])) ∧
    (publishStep st kv a rr d).1.dailyUsageHistory = st.dailyUsageHistory := by
  obtain ⟨hdel1, hdel2⟩ := deltaTrackStep_hist st a (treatedTotalL kv)
  have hrest : ∀ kv5 treated total,
      ((publishRest (deltaTrackStep st a (treatedTotalL kv)) kv5 treated total
          d).1.regenEndHistory = st.regenEndHistory ∨
        (publishRest (deltaTrackStep st a (treatedTotalL kv)) kv5 treated total
          d).1.regenEndHistory = pyLastN 30 (st.regenEndHistory ++ [d])) ∧
      (publishRest (deltaTrackStep st a (treatedTotalL kv)) kv5 treated total
        d).1.dailyUsageHistory = st.dailyUsageHistory := by
    intro kv5 treated total
    obtain ⟨h1, h2⟩ := publishRest_hist (deltaTrackStep st a (treatedTotalL kv))
      kv5 treated total d
    rw [h2, hdel2]
    rcases h1 with h | h
    · rw [h, hdel1]
      exact ⟨Or.inl rfl, rfl⟩
    · rw [h, hdel1]
      exact ⟨Or.inr rfl, rfl⟩
  simp only [publishStep]
  split
  · split
    · exact ⟨Or.inl hdel1, hdel2⟩
    · exact hrest _ _ _
  · exact hrest _ _ _

theorem postprocessCalc_hist (st : PPState) (kv : Kv) (nowTs nowDt : ℚ)
    (today : String) :
    ((postprocessCalc st kv nowTs nowDt today).1.regenEndHistory.length ≤
        max 30 st.regenEndHistory.length) ∧
    ((postprocessCalc st kv nowTs nowDt today).1.dailyUsageHistory.length ≤
        max 60 st.dailyUsageHistory.length) := by
  simp only [postprocessCalc]
  obtain ⟨hc1, hc2⟩ := cyclesStep_hist st kv
  obtain ⟨hl1, hl2⟩ := latchStep_hist (cyclesStep st kv) kv nowTs
  set st2 := (latchStep (cyclesStep st kv) kv nowTs).1
  set active := (latchStep (cyclesStep st kv) kv nowTs).2
  obtain ⟨he1, he2⟩ := regenEdgeStep_hist st2 kv active nowDt
  set st3 := regenEdgeStep st2 kv active nowDt
  obtain ⟨hb1, hb2⟩ := bumpStep_hist st3 kv active (rechargeBumped st kv)
  set st4 := bumpStep st3 kv active (rechargeBumped st kv)
  set st5 : PPState := {st4 with regenActivePrev := active} with hst5
  have h51 : st5.regenEndHistory = st4.regenEndHistory := rfl
  have h52 : st5.dailyUsageHistory = st4.dailyUsageHistory := rfl
  obtain ⟨hf1, hf2⟩ := fix23Step_hist st5 kv active (rechargeBumped st kv)
    (regenRemOf kv) today
  set st6 := fix23Step st5 kv active (rechargeBumped st kv) (regenRemOf kv) today
  obtain ⟨hd1, hd2⟩ := dailyStep_hist st6 kv today
  set st7 := dailyStep st6 kv today
  obtain ⟨hi1, hi2⟩ := inferBaselineStep_hist st7 kv
  set st8 := inferBaselineStep st7 kv
  obtain ⟨hp1, hp2⟩ := publishStep_hist st8 kv active (regenRemOf kv) nowDt
  have hhist8 : st8.regenEndHistory.length ≤ max 30 st.regenEndHistory.length := by
    rw [hi1, hd1, hf1, h51, hb1]
    rcases he1 with h | h
    · rw [h, hl1, hc1]
      exact le_max_of_le_right le_rfl
    · rw [h]
      exact le_max_of_le_left (pyLastN_length_le _ _)
  have hdaily8 : st8.dailyUsageHistory.length ≤ max 60 st.dailyUsageHistory.length := by
    rw [hi2]
    rcases hd2 with h | h
    · rw [h, hf2, h52, hb2, he2, hl2, hc2]
      exact le_max_of_le_right le_rfl
    · obtain ⟨xs, hx⟩ := h
      rw [hx]
      exact le_max_of_le_left (pyLastN_length_le _ _)
  constructor
  · rcases hp1 with h | h
    · rw [h]
      exact hhist8
    · rw [h]
      exact le_max_of_le_left (pyLastN_length_le _ _)
  · rw [hp2]
    exact hdaily8

theorem loadRestPart_hist (parseDT : String → Option ℚ) (data : J)
    (stA : PPState) :
    ((loadRestPart parseDT data stA).regenEndHistory = stA.regenEndHistory ∨
      ∃ xs : List ℚ,
        (loadRestPart parseDT data stA).regenEndHistory = pyLastN 30 xs) ∧
    ((loadRestPart parseDT data stA).dailyUsageHistory = stA.dailyUsageHistory ∨
      ∃ xs : List (String × ℚ),
        (loadRestPart parseDT data stA).dailyUsageHistory = pyLastN 60 xs) := by
  constructor
  · simp only [loadRestPart, apply_ite PPState.regenEndHistory, ite_self]
    split
    · exact Or.inr ⟨_, rfl⟩
    · exact Or.inl rfl
  · simp only [loadRestPart, apply_ite PPState.dailyUsageHistory, ite_self]
    split
    · exact Or.inr ⟨_, rfl⟩
    · exact Or.inl rfl

theorem loadBaseline_hist (parseDT : String → Option ℚ) (data : J)
    (st : PPState) :
    ((loadBaseline parseDT data st).regenEndHistory = st.regenEndHistory ∨
      ∃ xs : List ℚ,
        (loadBaseline parseDT data st).regenEndHistory = pyLastN 30 xs) ∧
    ((loadBaseline parseDT data st).dailyUsageHistory = st.dailyUsageHistory ∨
      ∃ xs : List (String × ℚ),
        (loadBaseline parseDT data st).dailyUsageHistory = pyLastN 60 xs) := by
  cases data with
  | obj fs =>
    simp only [loadBaseline]
    split
    · exact loadRestPart_hist parseDT (J.obj fs) st
    · split
      · exact loadRestPart_hist parseDT (J.obj fs) _
      · exact ⟨Or.inl rfl, Or.inl rfl⟩
  | null => exact ⟨Or.inl rfl, Or.inl rfl⟩
  | bool b => exact ⟨Or.inl rfl, Or.inl rfl⟩
  | num q => exact ⟨Or.inl rfl, Or.inl rfl⟩
  | str s => exact ⟨Or.inl rfl, Or.inl rfl⟩
  | arr xs => exact ⟨Or.inl rfl, Or.inl rfl⟩

/-! ## C7: the persisted history lists are bounded -/

/-- C7: the baseline record history lists stay bounded: after
`async_load_baseline` the regeneration-end history has at most 30 entries
and the daily-usage history at most 60; `_postprocess_calculations`
preserves those bounds; and every record written by `_async_save_baseline`
carries exactly the last-30 / last-60 truncations (hence bounded suffixes)
of the in-memory lists. -/
theorem history_bounds (parseDT : String → Option ℚ) (data : J)
    (st stp s : PPState) (kv : Kv) (nowTs nowDt : ℚ) (today : String)
    (h1 : st.regenEndHistory.length ≤ 30)
    (h2 : st.dailyUsageHistory.length ≤ 60)
    (h3 : stp.regenEndHistory.length ≤ 30)
    (h4 : stp.dailyUsageHistory.length ≤ 60) :
    (loadBaseline parseDT data st).regenEndHistory.length ≤ 30 ∧
    (loadBaseline parseDT data st).dailyUsageHistory.length ≤ 60 ∧
    (postprocessCalc stp kv nowTs nowDt today).1.regenEndHistory.length ≤ 30 ∧
    (postprocessCalc stp kv nowTs nowDt today).1.dailyUsageHistory.length ≤ 60 ∧
    (saveBaselineRecord s).regenEndHistory = pyLastN 30 s.regenEndHistory ∧
    (saveBaselineRecord s).regenEndHistory.length ≤ 30 ∧
    (saveBaselineRecord s).regenEndHistory <:+ s.regenEndHistory ∧
    (saveBaselineRecord s).dailyUsageHistory = pyLastN 60 s.dailyUsageHistory ∧
    (saveBaselineRecord s).dailyUsageHistory.length ≤ 60 ∧
    (saveBaselineRecord s).dailyUsageHistory <:+ s.dailyUsageHistory := by
  obtain ⟨hl1, hl2⟩ := loadBaseline_hist parseDT data st
  obtain ⟨hp1, hp2⟩ := postprocessCalc_hist stp kv nowTs nowDt today
  refine ⟨?_, ?_, ?_, ?_, rfl, pyLastN_length_le _ _, pyLastN_suffix _ _,
    rfl, pyLastN_length_le _ _, pyLastN_suffix _ _⟩
  · rcases hl1 with h | ⟨xs, h⟩
    · rw [h]
      exact h1
    · rw [h]
      exact pyLastN_length_le _ _
  · rcases hl2 with h | ⟨xs, h⟩
    · rw [h]
      exact h2
    · rw [h]
      exact pyLastN_length_le _ _
  · exact le_trans hp1 (max_le le_rfl h3)
  · exact le_trans hp2 (max_le le_rfl h4)

/-- Witness for `history_bounds` at a concrete state and payload. -/
theorem history_bounds_witness :
    (initPPState.regenEndHistory.length ≤ 30 ∧
      initPPState.dailyUsageHistory.length ≤ 60) ∧
    (loadBaseline (fun _ => none) J.null initPPState).regenEndHistory.length ≤ 30 ∧
    (postprocessCalc initPPState [] 0 0 "2026-10-12").1.regenEndHistory.length ≤ 30 ∧
    (saveBaselineRecord initPPState).regenEndHistory.length ≤ 30 := by
  have h := history_bounds (fun _ => none) J.null initPPState initPPState
    initPPState [] 0 0 "2026-10-12"
    (by simp [initPPState]) (by simp [initPPState])
    (by simp [initPPState]) (by simp [initPPState])
  exact ⟨⟨by simp [initPPState], by simp [initPPState]⟩, h.1, h.2.2.1,
    h.2.2.2.2.2.1⟩

/-! ## kv lookup lemmas for the publish phase -/

theorem kvGet_set_self (m : Kv) (k : String) (v : J) :
    kvGet (kvSet m k v) k = some v := alGet_alSet_self m k v

theorem kvGet_set_ne (m : Kv) (k k2 : String) (v : J) (h : k ≠ k2) :
    kvGet (kvSet m k v) k2 = kvGet m k2 := alGet_alSet_ne m k k2 v h

theorem computeCapacityTotalL_pos (kv : Kv) (t : ℚ)
    (h : computeCapacityTotalL kv = some t) : 0 < t := by
  simp only [computeCapacityTotalL] at h
  split at h
  case h_1 o hq hopq hhq =>
    split at h
    · exact absurd h (by simp)
    · rename_i hno
      push_neg at hno
      obtain ⟨ho, hh⟩ := hno
      have ht : o / hq * (378541 / 100000 : ℚ) = t := by
        simpa using h
      rw [← ht]
      have h1 : 0 < o / hq := div_pos (lt_of_not_ge (by simpa using ho))
        (lt_of_not_ge (by simpa using hh))
      positivity
  case h_2 => exact absurd h (by simp)

theorem kvGet_daysSinceWrite (st2 : PPState) (kv9 : Kv) (cds : Option ℚ)
    (d : ℚ) (k : String)
    (h : ("calculated.days_since_last_regen_days" : String) ≠ k) :
    kvGet (daysSinceWrite st2 kv9 cds d).2 k = kvGet kv9 k := by
  simp only [daysSinceWrite]
  repeat' split
  all_goals first | rfl | exact kvGet_set_ne _ _ _ _ h

theorem kvGet_avgDailyWrite (hist : List (String × ℚ)) (kv10 : Kv) (k : String)
    (h1 : ("calculated.average_daily_use_l" : String) ≠ k)
    (h2 : ("calculated.average_daily_use_l_14d" : String) ≠ k)
    (h3 : ("calculated.average_daily_use_l_30d" : String) ≠ k) :
    kvGet (avgDailyWrite hist kv10) k = kvGet kv10 k := by
  simp only [avgDailyWrite]
  repeat' split
  all_goals
    first
      | rfl
      | simp only [kvGet_set_ne _ _ _ _ h1, kvGet_set_ne _ _ _ _ h2,
          kvGet_set_ne _ _ _ _ h3]

theorem kvGet_avgDaysBetweenWrite (st4 : PPState) (kv13 : Kv) (k : String)
    (h : ("calculated.average_days_between_regen_days" : String) ≠ k) :
    kvGet (avgDaysBetweenWrite st4 kv13) k = kvGet kv13 k := by
  simp only [avgDaysBetweenWrite]
  exact kvGet_set_ne _ _ _ _ h

/-- Either the bootstrap block does nothing to the kv map, or it overwrites
the remaining/percent/estimate keys with a remaining value clamped to
`[0, tn]`, `tn` parsed from the published total. -/
theorem bootstrapStep_kv_cases (st3 : PPState) (kv12 : Kv) (cds : Option ℚ)
    (w : ℚ) :
    (bootstrapStep st3 kv12 cds w).2 = kv12 ∨
    ∃ tn remEst : ℚ,
      (kvGet kv12 "calculated.treated_capacity_total_l").bind pyFloat = some tn ∧
      0 < tn ∧ 0 ≤ remEst ∧ remEst ≤ tn ∧
      (bootstrapStep st3 kv12 cds w).2 =
        kvSet (kvSet (kvSet kv12 "calculated.treated_capacity_remaining_l"
            (J.num remEst))
          "calculated.treated_capacity_remaining_percent"
          (J.num (remEst / tn * 100)))
        "calculated.treated_capacity_remaining_is_estimate" (J.bool true) := by
  simp only [bootstrapStep]
  split
  · split
    case h_1 tn htn =>
      split
      · rename_i h0
        split
        case h_1 dys hdys =>
          split
          · refine Or.inr ⟨tn, _, htn, h0, le_max_left _ _, ?_, rfl⟩
            exact max_le (le_of_lt h0) (min_le_left _ _)
          · exact Or.inl rfl
        case h_2 => exact Or.inl rfl
      · exact Or.inl rfl
    case h_2 => exact Or.inl rfl
  · exact Or.inl rfl

/-- In the fallback branch the published remaining capacity is clamped to
`[0, t]` and the percent to the consistent ratio, whether or not the
bootstrap overwrites the first write. -/
theorem elifBody_capacity (st : PPState) (kvIn : Kv) (b w t d : ℚ)
    (ht : 0 < t)
    (htot : kvGet kvIn "calculated.treated_capacity_total_l" = some (J.num t)) :
    ∃ r : ℚ, 0 ≤ r ∧ r ≤ t ∧
      kvGet (elifBody st kvIn b w t d).2
        "calculated.treated_capacity_remaining_l" = some (J.num r) ∧
      kvGet (elifBody st kvIn b w t d).2
        "calculated.treated_capacity_total_l" = some (J.num t) ∧
      kvGet (elifBody st kvIn b w t d).2
        "calculated.treated_capacity_remaining_percent" =
        some (J.num (r / t * 100)) := by
  have hrem1_0 : 0 ≤ max 0 (t - max 0 (w - b)) := le_max_left _ _
  have hrem1_t : max 0 (t - max 0 (w - b)) ≤ t := by
    apply max_le (le_of_lt ht)
    have h0 : 0 ≤ max 0 (w - b) := le_max_left _ _
    linarith
  have f_rem : kvGet (kvSet (kvSet (kvSet (kvSet kvIn
        "calculated.baseline_treated_total_l" (J.num b))
        "calculated.treated_used_since_regen_l" (J.num (max 0 (w - b))))
        "calculated.treated_capacity_remaining_l"
        (J.num (max 0 (t - max 0 (w - b)))))
        "calculated.treated_capacity_remaining_percent"
        (if 0 < t then J.num (max 0 (t - max 0 (w - b)) / t * 100) else J.null))
      "calculated.treated_capacity_remaining_l" =
      some (J.num (max 0 (t - max 0 (w - b)))) := by
    simp only [kvGet_set_ne, kvGet_set_self, ne_eq, String.reduceEq,
      not_false_eq_true]
  have f_tot : kvGet (kvSet (kvSet (kvSet (kvSet kvIn
        "calculated.baseline_treated_total_l" (J.num b))
        "calculated.treated_used_since_regen_l" (J.num (max 0 (w - b))))
        "calculated.treated_capacity_remaining_l"
        (J.num (max 0 (t - max 0 (w - b)))))
        "calculated.treated_capacity_remaining_percent"
        (if 0 < t then J.num (max 0 (t - max 0 (w - b)) / t * 100) else J.null))
      "calculated.treated_capacity_total_l" = some (J.num t) := by
    simp only [kvGet_set_ne, kvGet_set_self, ne_eq, String.reduceEq,
      not_false_eq_true]
    exact htot
  have f_pct : kvGet (kvSet (kvSet (kvSet (kvSet kvIn
        "calculated.baseline_treated_total_l" (J.num b))
        "calculated.treated_used_since_regen_l" (J.num (max 0 (w - b))))
        "calculated.treated_capacity_remaining_l"
        (J.num (max 0 (t - max 0 (w - b)))))
        "calculated.treated_capacity_remaining_percent"
        (if 0 < t then J.num (max 0 (t - max 0 (w - b)) / t * 100) else J.null))
      "calculated.treated_capacity_remaining_percent" =
      some (J.num (max 0 (t - max 0 (w - b)) / t * 100)) := by
    rw [if_pos ht]
    exact kvGet_set_self _ _ _
  simp only [elifBody]
  generalize hkv9 : kvSet (kvSet (kvSet (kvSet kvIn
      "calculated.baseline_treated_total_l" (J.num b))
      "calculated.treated_used_since_regen_l" (J.num (max 0 (w - b))))
      "calculated.treated_capacity_remaining_l"
      (J.num (max 0 (t - max 0 (w - b)))))
      "calculated.treated_capacity_remaining_percent"
      (if 0 < t then J.num (max 0 (t - max 0 (w - b)) / t * 100) else J.null) = kv9
  rw [hkv9] at f_rem f_tot f_pct
  set cds := (cloudDaysOf kv9).bind pyToFloat with hcds
  set S3 := daysSinceWrite (daysDropStep (seedLastRegen st kv9 d) cds w t d)
    kv9 cds d with hS3
  set kv12 := avgDailyWrite S3.1.dailyUsageHistory S3.2 with hkv12
  have h12 : ∀ k : String,
      ("calculated.days_since_last_regen_days" : String) ≠ k →
      ("calculated.average_daily_use_l" : String) ≠ k →
      ("calculated.average_daily_use_l_14d" : String) ≠ k →
      ("calculated.average_daily_use_l_30d" : String) ≠ k →
      kvGet kv12 k = kvGet kv9 k := by
    intro k hk1 hk2 hk3 hk4
    rw [hkv12, kvGet_avgDailyWrite _ _ _ hk2 hk3 hk4, hS3,
      kvGet_daysSinceWrite _ _ _ _ _ hk1]
  rcases bootstrapStep_kv_cases S3.1 kv12 cds w with hb |
    ⟨tn, remEst, htn, h0, hr0, hr1, hb⟩
  · refine ⟨max 0 (t - max 0 (w - b)), hrem1_0, hrem1_t, ?_, ?_, ?_⟩
    · rw [kvGet_avgDaysBetweenWrite _ _ _ (by decide), hb,
        h12 _ (by decide) (by decide) (by decide) (by decide)]
      exact f_rem
    · rw [kvGet_avgDaysBetweenWrite _ _ _ (by decide), hb,
        h12 _ (by decide) (by decide) (by decide) (by decide)]
      exact f_tot
    · rw [kvGet_avgDaysBetweenWrite _ _ _ (by decide), hb,
        h12 _ (by decide) (by decide) (by decide) (by decide)]
      exact f_pct
  · have htn_eq : tn = t := by
      rw [h12 _ (by decide) (by decide) (by decide) (by decide), f_tot] at htn
      simpa [pyFloat] using htn.symm
    subst htn_eq
    refine ⟨remEst, hr0, hr1, ?_, ?_, ?_⟩
    · rw [kvGet_avgDaysBetweenWrite _ _ _ (by decide), hb]
      simp only [kvGet_set_ne, kvGet_set_self, ne_eq, String.reduceEq,
        not_false_eq_true]
    · rw [kvGet_avgDaysBetweenWrite _ _ _ (by decide), hb]
      simp only [kvGet_set_ne, kvGet_set_self, ne_eq, String.reduceEq,
        not_false_eq_true]
      rw [h12 _ (by decide) (by decide) (by decide) (by decide)]
      exact f_tot
    · rw [kvGet_avgDaysBetweenWrite _ _ _ (by decide), hb]
      simp only [kvGet_set_ne, kvGet_set_self, ne_eq, String.reduceEq,
        not_false_eq_true]

/-- Through the `elif`/`else` tail of the publish phase, any published
remaining capacity sits in `[0, t]` under the published total `t`, and any
published percent sits in `[0, 100]`, provided the incoming map has no
remaining/percent entries and its total entry matches the `total` option
with a positive value. -/
theorem publishRest_capacity (stD : PPState) (kv5 : Kv)
    (treated total : Option ℚ) (nowDt : ℚ)
    (hrem : kvGet kv5 "calculated.treated_capacity_remaining_l" = none)
    (hpct : kvGet kv5 "calculated.treated_capacity_remaining_percent" = none)
    (htot : ∀ t : ℚ, total = some t →
      0 < t ∧ kvGet kv5 "calculated.treated_capacity_total_l" =
        some (J.num t)) :
    (∀ r : ℚ, kvGet (publishRest stD kv5 treated total nowDt).2
        "calculated.treated_capacity_remaining_l" = some (J.num r) →
      ∃ t : ℚ, kvGet (publishRest stD kv5 treated total nowDt).2
        "calculated.treated_capacity_total_l" = some (J.num t) ∧
        0 ≤ r ∧ r ≤ t) ∧
    (∀ p : ℚ, kvGet (publishRest stD kv5 treated total nowDt).2
        "calculated.treated_capacity_remaining_percent" = some (J.num p) →
      0 ≤ p ∧ p ≤ 100) := by
  simp only [publishRest]
  split
  case h_1 b w t hB =>
    obtain ⟨ht, htot5⟩ := htot t rfl
    obtain ⟨r, hr0, hrt, hR, hT, hP⟩ :=
      elifBody_capacity stD kv5 b w t nowDt ht htot5
    constructor
    · intro r' hr'
      rw [hR, Option.some.injEq, J.num.injEq] at hr'
      subst hr'
      exact ⟨t, hT, hr0, hrt⟩
    · intro p hp
      rw [hP, Option.some.injEq, J.num.injEq] at hp
      subst hp
      constructor
      · positivity
      · have h1 : r / t ≤ 1 := (div_le_one ht).mpr hrt
        nlinarith
  case h_2 b x y hnb =>
    constructor
    · intro r hr
      rw [kvGet_set_ne _ _ _ _ (by decide), hrem] at hr
      exact absurd hr (by simp)
    · intro p hp
      rw [kvGet_set_ne _ _ _ _ (by decide), hpct] at hp
      exact absurd hp (by simp)
  case h_3 =>
    constructor
    · intro r hr
      rw [hrem] at hr
      exact absurd hr (by simp)
    · intro p hp
      rw [hpct] at hp
      exact absurd hp (by simp)

/-- Through the whole publish phase: with no remaining/percent entries in
the incoming map, any published remaining capacity is in `[0, t]` for the
published total `t` and any published percent in `[0, 100]`, on the IST
path, the fallback path and the bootstrap path alike. -/
theorem publish_capacity (st : PPState) (kv : Kv) (active : Bool)
    (regRem nowDt : ℚ)
    (hrem : kvGet kv "calculated.treated_capacity_remaining_l" = none)
    (hpct : kvGet kv "calculated.treated_capacity_remaining_percent" = none) :
    (∀ r : ℚ, kvGet (publishStep st kv active regRem nowDt).2
        "calculated.treated_capacity_remaining_l" = some (J.num r) →
      ∃ t : ℚ, kvGet (publishStep st kv active regRem nowDt).2
        "calculated.treated_capacity_total_l" = some (J.num t) ∧
        0 ≤ r ∧ r ≤ t) ∧
    (∀ p : ℚ, kvGet (publishStep st kv active regRem nowDt).2
        "calculated.treated_capacity_remaining_percent" = some (J.num p) →
      0 ≤ p ∧ p ≤ 100) := by
  simp only [publishStep]
  cases htot : computeCapacityTotalL kv with
  | none =>
    simp only []
    refine publishRest_capacity _ _ _ _ _ ?_ ?_ ?_
    · rw [kvGet_set_ne _ _ _ _ (by decide), kvGet_set_ne _ _ _ _ (by decide),
        kvGet_set_ne _ _ _ _ (by decide), kvGet_set_ne _ _ _ _ (by decide)]
      exact hrem
    · rw [kvGet_set_ne _ _ _ _ (by decide), kvGet_set_ne _ _ _ _ (by decide),
        kvGet_set_ne _ _ _ _ (by decide), kvGet_set_ne _ _ _ _ (by decide)]
      exact hpct
    · intro t ht
      exact absurd ht (by simp)
  | some t =>
    have ht : 0 < t := computeCapacityTotalL_pos kv t htot
    have hrem5 : kvGet (kvSet (kvSet (kvSet (kvSet (kvSet kv
        "calculated.treated_capacity_total_l" (J.num t))
        "calculated.regen_time_remaining_secs" (J.num regRem))
        "calculated.regeneration_running" (J.bool active))
        "calculated.regeneration_status"
        (match regenStatusStr kv with | some s => J.str s | none => J.null))
        "calculated.capacity_ist_ready"
        (J.bool (deltaTrackStep st active (treatedTotalL kv)).capacityIstReady))
        "calculated.treated_capacity_remaining_l" = none := by
      rw [kvGet_set_ne _ _ _ _ (by decide), kvGet_set_ne _ _ _ _ (by decide),
        kvGet_set_ne _ _ _ _ (by decide), kvGet_set_ne _ _ _ _ (by decide),
        kvGet_set_ne _ _ _ _ (by decide)]
      exact hrem
    have hpct5 : kvGet (kvSet (kvSet (kvSet (kvSet (kvSet kv
        "calculated.treated_capacity_total_l" (J.num t))
        "calculated.regen_time_remaining_secs" (J.num regRem))
        "calculated.regeneration_running" (J.bool active))
        "calculated.regeneration_status"
        (match regenStatusStr kv with | some s => J.str s | none => J.null))
        "calculated.capacity_ist_ready"
        (J.bool (deltaTrackStep st active (treatedTotalL kv)).capacityIstReady))
        "calculated.treated_capacity_remaining_percent" = none := by
      rw [kvGet_set_ne _ _ _ _ (by decide), kvGet_set_ne _ _ _ _ (by decide),
        kvGet_set_ne _ _ _ _ (by decide), kvGet_set_ne _ _ _ _ (by decide),
        kvGet_set_ne _ _ _ _ (by decide)]
      exact hpct
    have htot5 : kvGet (kvSet (kvSet (kvSet (kvSet (kvSet kv
        "calculated.treated_capacity_total_l" (J.num t))
        "calculated.regen_time_remaining_secs" (J.num regRem))
        "calculated.regeneration_running" (J.bool active))
        "calculated.regeneration_status"
        (match regenStatusStr kv with | some s => J.str s | none => J.null))
        "calculated.capacity_ist_ready"
        (J.bool (deltaTrackStep st active (treatedTotalL kv)).capacityIstReady))
        "calculated.treated_capacity_total_l" = some (J.num t) := by
      rw [kvGet_set_ne _ _ _ _ (by decide), kvGet_set_ne _ _ _ _ (by decide),
        kvGet_set_ne _ _ _ _ (by decide), kvGet_set_ne _ _ _ _ (by decide)]
      exact kvGet_set_self _ _ _
    cases hcr : (deltaTrackStep st active (treatedTotalL kv)).capacityRemainingL
      with
    | none =>
      simp only []
      exact publishRest_capacity _ _ _ _ _ hrem5 hpct5
        (fun t' ht' => by
          rw [Option.some.injEq] at ht'
          subst ht'
          exact ⟨ht, htot5⟩)
    | some rem =>
      simp only []
      by_cases hist : (deltaTrackStep st active (treatedTotalL kv)).capacityIstReady
      · rw [if_pos hist]
        constructor
        · intro r hr
          rw [kvGet_set_ne _ _ _ _ (by decide),
            kvGet_set_ne _ _ _ _ (by decide), kvGet_set_self] at hr
          rw [Option.some.injEq, J.num.injEq] at hr
          subst hr
          refine ⟨t, ?_, le_max_left _ _,
            max_le (le_of_lt ht) (min_le_left _ _)⟩
          rw [kvGet_set_ne _ _ _ _ (by decide), kvGet_set_ne _ _ _ _ (by decide),
            kvGet_set_ne _ _ _ _ (by decide), kvGet_set_ne _ _ _ _ (by decide)]
          exact htot5
        · intro p hp
          rw [kvGet_set_ne _ _ _ _ (by decide), kvGet_set_self, if_pos ht,
            Option.some.injEq, J.num.injEq] at hp
          subst hp
          have h0 : (0:ℚ) ≤ max 0 (min t rem) := le_max_left _ _
          have h1 : max 0 (min t rem) ≤ t :=
            max_le (le_of_lt ht) (min_le_left _ _)
          have h2 : max 0 (min t rem) / t ≤ 1 := (div_le_one ht).mpr h1
          constructor
          · positivity
          · nlinarith
      · rw [if_neg hist]
        exact publishRest_capacity _ _ _ _ _ hrem5 hpct5
          (fun t' ht' => by
            rw [Option.some.injEq] at ht'
            subst ht'
            exact ⟨ht, htot5⟩)

/-- C9: every value `_postprocess_calculations` publishes under
`calculated.treated_capacity_remaining_l` is nonnegative and at most the
value it publishes under `calculated.treated_capacity_total_l`, and every
value published under `calculated.treated_capacity_remaining_percent` lies
in `[0, 100]` (the total capacity being positive whenever computed), on the
IST delta path, the baseline fallback path and the restart bootstrap path
alike. -/
theorem published_capacity_bounds (st : PPState) (kv : Kv) (nowTs nowDt : ℚ)
    (today : String)
    (hrem : kvGet kv "calculated.treated_capacity_remaining_l" = none)
    (hpct : kvGet kv "calculated.treated_capacity_remaining_percent" = none) :
    (∀ r : ℚ, kvGet (postprocessCalc st kv nowTs nowDt today).2
        "calculated.treated_capacity_remaining_l" = some (J.num r) →
      ∃ t : ℚ, kvGet (postprocessCalc st kv nowTs nowDt today).2
        "calculated.treated_capacity_total_l" = some (J.num t) ∧
        0 ≤ r ∧ r ≤ t) ∧
    (∀ p : ℚ, kvGet (postprocessCalc st kv nowTs nowDt today).2
        "calculated.treated_capacity_remaining_percent" = some (J.num p) →
      0 ≤ p ∧ p ≤ 100) := by
  simp only [postprocessCalc]
  exact publish_capacity _ kv _ _ nowDt hrem hpct

/-- Witness for `published_capacity_bounds`: the empty kv map has no
remaining/percent entry, so the bounds hold for whatever the publish phase
writes. -/
theorem published_capacity_bounds_witness :
    kvGet ([] : Kv) "calculated.treated_capacity_remaining_l" = none ∧
    kvGet ([] : Kv) "calculated.treated_capacity_remaining_percent" = none ∧
    ((∀ r : ℚ, kvGet (postprocessCalc initPPState [] 0 0 "2026-01-01").2
        "calculated.treated_capacity_remaining_l" = some (J.num r) →
      ∃ t : ℚ, kvGet (postprocessCalc initPPState [] 0 0 "2026-01-01").2
        "calculated.treated_capacity_total_l" = some (J.num t) ∧
        0 ≤ r ∧ r ≤ t) ∧
    (∀ p : ℚ, kvGet (postprocessCalc initPPState [] 0 0 "2026-01-01").2
        "calculated.treated_capacity_remaining_percent" = some (J.num p) →
      0 ≤ p ∧ p ≤ 100)) :=
  ⟨rfl, rfl, published_capacity_bounds initPPState [] 0 0 "2026-01-01" rfl rfl⟩

/-! ## C8: the fix17 delta-tracking step is a frame-precise update -/

/-- C8: in the delta-based tracking step (regeneration inactive, IST ready,
remaining / last-total / current treated values present): a backward counter
move leaves `_capacity_remaining_l` unchanged and only resets the delta
baseline `_water_total_last_l`; a positive delta decreases remaining by
exactly the delta clamped below at 0 (and advances the baseline); a zero
delta changes nothing. -/
theorem delta_tracking_frame (st : PPState) (r lw w : ℚ)
    (hIst : st.capacityIstReady = true)
    (hr : st.capacityRemainingL = some r)
    (hlw : st.waterTotalLastL = some lw) :
    (w - lw < 0 →
      deltaTrackStep st false (some w) = {st with waterTotalLastL := some w}) ∧
    (0 < w - lw →
      deltaTrackStep st false (some w) =
        {st with
          capacityRemainingL := some (max 0 (r - (w - lw))),
          waterTotalLastL := some w}) ∧
    (w - lw = 0 → deltaTrackStep st false (some w) = st) := by
  refine ⟨?_, ?_, ?_⟩
  · intro hneg
    have h1 : ¬(0 < w - lw) := by linarith
    simp [deltaTrackStep, hIst, hr, hlw, h1, hneg]
  · intro hpos
    simp [deltaTrackStep, hIst, hr, hlw, hpos]
  · intro hz
    have h1 : ¬(0 < w - lw) := by linarith
    have h2 : ¬(w - lw < 0) := by linarith
    simp [deltaTrackStep, hIst, hr, hlw, h1, h2]

/-- Witness for `delta_tracking_frame`: a concrete positive-delta step. -/
theorem delta_tracking_frame_witness :
    (initPPState.capacityIstReady = true → False) ∧
    ({initPPState with
        capacityIstReady := true, capacityRemainingL := some 100,
        waterTotalLastL := some 40}).capacityIstReady = true ∧
    deltaTrackStep {initPPState with
        capacityIstReady := true, capacityRemainingL := some 100,
        waterTotalLastL := some 40} false (some 55) =
      {initPPState with
        capacityIstReady := true, capacityRemainingL := some 85,
        waterTotalLastL := some 55} := by
  refine ⟨fun h => by simp [initPPState] at h, rfl, ?_⟩
  have h := (delta_tracking_frame {initPPState with
      capacityIstReady := true, capacityRemainingL := some 100,
      waterTotalLastL := some 40} 100 40 55 rfl rfl rfl).2.1 (by norm_num)
  rw [h]
  norm_num

/-! ## C5: regeneration completion detection across polls -/

/-- C5 (amended): on a poll where the latched regeneration state is
inactive and the treated-water total parses as `w`: (a) if the previous
poll was active, the regen-end edge block sets the baseline and the
delta base to `w` unconditionally, and resets the remaining capacity to
the computed total capacity with IST tracking ready exactly when that
total is available (it is then positive), clearing IST readiness when it
is not; (b) the recharge-counter-bump block performs the reset — baseline,
total, remaining, IST flag and delta base — only when the computed total
capacity is available, and leaves the state entirely unchanged (baseline
included) when it is not. -/
theorem regen_completion_detection (st : PPState) (kv : Kv) (nowDt w : ℚ)
    (hw : treatedTotalL kv = some w) (hp : st.regenActivePrev = true) :
    ((regenEdgeStep st kv false nowDt).baselineTreatedTotalL = some w ∧
     (regenEdgeStep st kv false nowDt).waterTotalLastL = some w) ∧
    (∀ t : ℚ, computeCapacityTotalL kv = some t →
      (regenEdgeStep st kv false nowDt).capacityRemainingL = some t ∧
      (regenEdgeStep st kv false nowDt).capacityIstReady = true ∧
      bumpStep st kv false true =
        {st with
          baselineTreatedTotalL := some w, capacityTotalLAttr := some t,
          capacityRemainingL := some t, capacityIstReady := true,
          waterTotalLastL := some w}) ∧
    (computeCapacityTotalL kv = none →
      (regenEdgeStep st kv false nowDt).capacityIstReady = false ∧
      bumpStep st kv false true = st) := by
  refine ⟨?_, ?_, ?_⟩
  · cases hT : computeCapacityTotalL kv with
    | none => simp [regenEdgeStep, hw, hp, hT]
    | some t =>
      have ht := computeCapacityTotalL_pos kv t hT
      simp [regenEdgeStep, hw, hp, hT, ht]
  · intro t hT
    have ht := computeCapacityTotalL_pos kv t hT
    refine ⟨?_, ?_, ?_⟩
    · simp [regenEdgeStep, hw, hp, hT, ht]
    · simp [regenEdgeStep, hw, hp, hT, ht]
    · simp [bumpStep, hw, hT, ht]
  · intro hT
    refine ⟨?_, ?_⟩
    · simp [regenEdgeStep, hw, hp, hT]
    · simp [bumpStep, hw, hT]

/-- Witness for `regen_completion_detection`: a previously-active state and
a kv map whose treated total is 500 L and whose computed total capacity is
unavailable. -/
theorem regen_completion_detection_witness :
    treatedTotalL cexKv = some 500 ∧ cexPrevState.regenActivePrev = true ∧
    (((regenEdgeStep cexPrevState cexKv false 0).baselineTreatedTotalL = some 500 ∧
      (regenEdgeStep cexPrevState cexKv false 0).waterTotalLastL = some 500) ∧
     (∀ t : ℚ, computeCapacityTotalL cexKv = some t →
       (regenEdgeStep cexPrevState cexKv false 0).capacityRemainingL = some t ∧
       (regenEdgeStep cexPrevState cexKv false 0).capacityIstReady = true ∧
       bumpStep cexPrevState cexKv false true =
         {cexPrevState with
           baselineTreatedTotalL := some 500, capacityTotalLAttr := some t,
           capacityRemainingL := some t, capacityIstReady := true,
           waterTotalLastL := some 500}) ∧
     (computeCapacityTotalL cexKv = none →
       (regenEdgeStep cexPrevState cexKv false 0).capacityIstReady = false ∧
       bumpStep cexPrevState cexKv false true = cexPrevState)) :=
  ⟨rfl, rfl, regen_completion_detection cexPrevState cexKv 0 500 rfl rfl⟩

/-- C5 counterexample to the unamended claim: with a bumped recharge
counter (9 → 10), regeneration inactive, and a parseable treated total of
500 L, but the computed total capacity unavailable, a full
`_postprocess_calculations` run leaves the persisted baseline at its old
value 100 L instead of setting it to the current treated total 500 L. -/
theorem regen_bump_without_total_cex :
    rechargeBumped cexPPState cexKv = true ∧
    treatedTotalL cexKv = some 500 ∧
    (latchStep (cyclesStep cexPPState cexKv) cexKv 1000).2 = false ∧
    cexPPState.regenActivePrev = false ∧
    computeCapacityTotalL cexKv = none ∧
    cexPPState.baselineTreatedTotalL = some 100 ∧
    (postprocessCalc cexPPState cexKv 1000 20000 "2026-10-12").1.baselineTreatedTotalL
      = some 100 ∧
    (postprocessCalc cexPPState cexKv 1000 20000 "2026-10-12").1.baselineTreatedTotalL
      ≠ some 500 := by
  refine ⟨by decide, by decide, by decide, rfl, by decide, rfl, by decide,
    by decide⟩

end IquaSoft
